import Mathlib

/-!
Verification development for the computation core of the
delicatessen-production-planner repository: fiscal-date conversion
(`src/lib/fiscal-calendar.ts`), holiday impact modelling
(`src/lib/holiday-engine.ts`), demand forecasting (`src/lib/forecasting.ts`),
batch-size optimization (`BatchOptimizer` in the fiscal-calendar source file)
and the plan generator orchestrator.

Modelling conventions:
- JS `Date` values (always at local midnight here) are modelled as day numbers
  (`ℤ`, days since 1970-01-01); `addDays` is integer addition and `startOfDay`
  is the identity.  Millisecond arithmetic such as
  `Math.floor((a.getTime() - b.getTime()) / 86400000)` becomes plain integer
  subtraction of day numbers.
- JS numbers are modelled as `ℝ` (exact real arithmetic in place of binary64),
  except where a `NaN` can actually arise: those values are `Option ℝ` or
  `Option ℚ` with `none` standing for `NaN`, and the `js…` helpers below
  reproduce the JS propagation/comparison rules for `NaN`.
- `new Date()` (the wall clock) is modelled by an explicit `today`/`now`
  parameter threaded to the functions that read it.
-/

/-! ## JS numeric helpers on possibly-NaN rationals (`none` = NaN) -/

/-- JS `+` on possibly-NaN rationals; NaN propagates. -/
def jsAddQ : Option ℚ → Option ℚ → Option ℚ
  | some a, some b => some (a + b)
  | _, _ => none

/-- JS `-` on possibly-NaN rationals; NaN propagates. -/
def jsSubQ : Option ℚ → Option ℚ → Option ℚ
  | some a, some b => some (a - b)
  | _, _ => none

/-- JS `*` on possibly-NaN rationals; NaN propagates. -/
def jsMulQ : Option ℚ → Option ℚ → Option ℚ
  | some a, some b => some (a * b)
  | _, _ => none

/-- JS `/` on possibly-NaN rationals.  A zero divisor yields `none`: in the one
reachable zero-divisor site of this code base (the holiday proximity
computation) the dividend is provably `0` whenever the divisor is, so the JS
result is `0/0 = NaN`; the `x/0 = ±Infinity` case (`x ≠ 0`) is unreachable
there. -/
def jsDivQ : Option ℚ → Option ℚ → Option ℚ
  | some a, some b => if b = 0 then none else some (a / b)
  | _, _ => none

/-- JS `Math.abs`; NaN propagates. -/
def jsAbsQ : Option ℚ → Option ℚ
  | some a => some |a|
  | none => none

/-- JS `Math.max` on two arguments; returns NaN when either argument is NaN. -/
def jsMaxQ : Option ℚ → Option ℚ → Option ℚ
  | some a, some b => some (max a b)
  | _, _ => none

/-- JS `Math.min` on two arguments; returns NaN when either argument is NaN. -/
def jsMinQ : Option ℚ → Option ℚ → Option ℚ
  | some a, some b => some (min a b)
  | _, _ => none

/-- JS `<`; every comparison with NaN is false. -/
def jsLtQ : Option ℚ → Option ℚ → Bool
  | some a, some b => a < b
  | _, _ => false

/-- JS `>`; every comparison with NaN is false. -/
def jsGtQ : Option ℚ → Option ℚ → Bool
  | some a, some b => a > b
  | _, _ => false

/-! ## Calendar dates as day numbers

Conversion between proleptic-Gregorian civil dates and day numbers since
1970-01-01, the standard era-based algorithm.  `Date#getFullYear`,
`getMonth`, `getDate` and `getDay` of the JS runtime correspond to `yearOf`,
`monthOf` (1-based here; the embedded code only ever compares months to
months, so the 0-based/1-based offset is immaterial and noted at each use),
`dayOf` and `weekdayOf`. -/

/-- Day number (days since 1970-01-01) of the civil date `y-m-d`.
A month value of `13` rolls over to January of the next year, matching the JS
`Date` constructor's month rollover in the one place a 13th month is formed
(`new Date(year, month + 1, 0)` for December). -/
def daysFromCivil (y m d : ℤ) : ℤ :=
  let y' : ℤ := if m ≤ 2 then y - 1 else y
  let era : ℤ := Int.fdiv y' 400
  let yoe : ℤ := y' - era * 400
  let mp : ℤ := if 2 < m then m - 3 else m + 9
  let doy : ℤ := (153 * mp + 2) / 5 + d - 1
  let doe : ℤ := yoe * 365 + yoe / 4 - yoe / 100 + doy
  era * 146097 + doe - 719468

/-- Civil date `(year, month, day)` (month 1-based) of a day number. -/
def civilFromDays (z0 : ℤ) : ℤ × ℤ × ℤ :=
  let z : ℤ := z0 + 719468
  let era : ℤ := Int.fdiv z 146097
  let doe : ℕ := (z - era * 146097).toNat
  let yoe : ℕ := (doe - doe / 1460 + doe / 36524 - doe / 146096) / 365
  let y' : ℤ := (yoe : ℤ) + era * 400
  let doy : ℕ := doe - (365 * yoe + yoe / 4 - yoe / 100)
  let mp : ℕ := (5 * doy + 2) / 153
  let d : ℤ := (doy : ℤ) - (((153 * mp + 2) / 5 : ℕ) : ℤ) + 1
  let m : ℤ := if mp < 10 then (mp : ℤ) + 3 else (mp : ℤ) - 9
  (if m ≤ 2 then y' + 1 else y', m, d)

/-- `Date#getFullYear`. -/
def yearOf (z : ℤ) : ℤ := (civilFromDays z).1

/-- The calendar month (1-based; JS `getMonth()` is this minus one). -/
def monthOf (z : ℤ) : ℤ := (civilFromDays z).2.1

/-- `Date#getDate` (day of month). -/
def dayOf (z : ℤ) : ℤ := (civilFromDays z).2.2

/-- `Date#getDay` (0 = Sunday … 6 = Saturday); 1970-01-01 was a Thursday. -/
def weekdayOf (z : ℤ) : ℤ := (z + 4).emod 7

/-! ## Fiscal Calendar (`FiscalCalendar` in src/lib/fiscal-calendar.ts)

The class holds a fiscal-year anchor month/day (the app always constructs it
with Sept 2); the anchor's stored year (2024) is overwritten by
`setFullYear` before every use, so the anchor month and day are the only
state and are passed here as `startMonth`/`startDay`. -/

structure FiscalDate where
  fiscalYear : ℤ
  fiscalPeriod : ℤ
  fiscalWeek : ℤ
  fiscalDay : ℤ
deriving DecidableEq, Repr

/-- `FiscalCalendar.convertToCalendarDate`: anchor the fiscal year at
`fiscalYear - 1` (the source comment reads `FY2025 starts in 2024`) and add
`(period-1)*28 + (week-1)*7 + (day-1)` days. -/
def convertToCalendarDate (startMonth startDay : ℤ)
    (fiscalYear fiscalPeriod fiscalWeek fiscalDay : ℤ) : ℤ :=
  let fiscalYearStartDate := daysFromCivil (fiscalYear - 1) startMonth startDay
  let daysFromFiscalStart :=
    (fiscalPeriod - 1) * 28 + (fiscalWeek - 1) * 7 + (fiscalDay - 1)
  fiscalYearStartDate + daysFromFiscalStart

/-- `FiscalCalendar.convertToFiscalDate`: locate the anchor interval containing
the date, then split the day offset by `/28` and `/7` (`Math.floor` division;
the offset from the selected anchor is non-negative, where JS `%` and `emod`
agree) and clamp each component to its range.  The final result adds 1 to the
fiscal-year variable (source comment `FY2025 starts in 2024`). -/
def convertToFiscalDate (startMonth startDay : ℤ) (date : ℤ) : FiscalDate :=
  let fiscalYear0 := yearOf date
  let fiscalYearStart0 := daysFromCivil (fiscalYear0 - 1) startMonth startDay
  let yearAndStart : ℤ × ℤ :=
    if date < fiscalYearStart0 then
      (fiscalYear0 - 1, daysFromCivil (fiscalYear0 - 2) startMonth startDay)
    else
      let nextFiscalYearStart := daysFromCivil fiscalYear0 startMonth startDay
      if nextFiscalYearStart ≤ date then (fiscalYear0 + 1, nextFiscalYearStart)
      else (fiscalYear0, fiscalYearStart0)
  let daysDifference := date - yearAndStart.2
  let fiscalPeriod := Int.fdiv daysDifference 28 + 1
  let remainingDays := Int.emod daysDifference 28
  let fiscalWeek := Int.fdiv remainingDays 7 + 1
  let fiscalDay := Int.emod remainingDays 7 + 1
  { fiscalYear := yearAndStart.1 + 1
    fiscalPeriod := max 1 (min 13 fiscalPeriod)
    fiscalWeek := max 1 (min 4 fiscalWeek)
    fiscalDay := max 1 (min 7 fiscalDay) }

/-- `FiscalCalendar.getCorrespondingDateLastYear`: convert to fiscal
coordinates, decrement the fiscal year, convert back. -/
def getCorrespondingDateLastYear (startMonth startDay : ℤ) (currentDate : ℤ) : ℤ :=
  let fiscalDate := convertToFiscalDate startMonth startDay currentDate
  convertToCalendarDate startMonth startDay (fiscalDate.fiscalYear - 1)
    fiscalDate.fiscalPeriod fiscalDate.fiscalWeek fiscalDate.fiscalDay

/-- Sanity anchor for the date model: 2024-09-02 is day 19968 since the epoch,
and is a Monday. -/
theorem daysFromCivil_anchor :
    daysFromCivil 2024 9 2 = 19968 ∧ civilFromDays 19968 = (2024, 9, 2) ∧
      weekdayOf (daysFromCivil 2024 9 2) = 1 := by
  refine ⟨by decide, by decide, by decide⟩

/-- C1.  The fiscal round trip does not return the original coordinate: for
every valid `(period, week, day)` of fiscal year 2025 (anchored Sept 2, the
configuration the application uses), `convertToFiscalDate ∘
convertToCalendarDate` preserves period, week and day but returns fiscal year
2026 — one more than the input.  `convertToCalendarDate 2025 …` anchors at
Sept 2, 2024 while `convertToFiscalDate` maps Sept 2, 2024 to fiscal year
2026: `convertToFiscalDate` adds 1 to a value that is already the fiscal-year
number under the source's own `FY2025 starts in 2024` convention.
Consequently `getCorrespondingDateLastYear` returns its input date unchanged
(shown here at 2025-03-15). -/
theorem fiscal_roundTrip_year_off_by_one :
    convertToFiscalDate 9 2 (convertToCalendarDate 9 2 2025 1 1 1)
        = ⟨2026, 1, 1, 1⟩ ∧
      ((List.range' 1 13).all fun p => (List.range' 1 4).all fun w =>
        (List.range' 1 7).all fun d =>
          decide (convertToFiscalDate 9 2
              (convertToCalendarDate 9 2 2025 (p : ℤ) (w : ℤ) (d : ℤ))
            = ⟨2026, (p : ℤ), (w : ℤ), (d : ℤ)⟩)) = true ∧
      getCorrespondingDateLastYear 9 2 (daysFromCivil 2025 3 15)
        = daysFromCivil 2025 3 15 := by
  refine ⟨by decide, by decide, by decide⟩

/-! ## Holiday Engine (src/lib/holiday-engine.ts)

Structural computations (rule resolution, proximity, explanation text) are
exact over `ℤ`/`ℚ`; the combined impact factor involves `Math.sqrt` and is
valued in `Option ℝ` (`none` = NaN). -/

inductive HolidayType
  | fixed
  | floating
  | relative
deriving DecidableEq, Repr

/-- A holiday rule (the `Holiday` interface); the cosmetic `description` and
`country` fields, which the engine never reads, are omitted. -/
structure Holiday where
  id : String
  name : String
  type : HolidayType
  month : Option ℤ
  day : Option ℤ
  rule : Option String
  daysBefore : ℚ
  daysAfter : ℚ
  salesMultiplier : ℚ
  isActive : Bool
deriving DecidableEq, Repr

/-- A holiday materialized for one year (the `HolidayInstance` interface). -/
structure HolidayInstance where
  holiday : Holiday
  date : ℤ
  year : ℤ
deriving DecidableEq, Repr

/-- One entry of `HolidayImpact.affectedHolidays`: `distance` is the signed
day distance and `impact` the proximity-scaled multiplier (NaN-able). -/
structure AffectedHoliday where
  holiday : Holiday
  distance : ℤ
  impact : Option ℚ
deriving DecidableEq, Repr

/-- `HolidayEngine.getDayOfWeekNumber`: index in the weekday-name list,
`-1` when the name is unknown (JS `indexOf`).  The source lower-cases its
argument; the argument always comes out of the rule parser below, which only
produces lower-case names, so the lower-casing is a no-op and omitted. -/
def getDayOfWeekNumber (dayName : String) : ℤ :=
  match dayName with
  | "sunday" => 0
  | "monday" => 1
  | "tuesday" => 2
  | "wednesday" => 3
  | "thursday" => 4
  | "friday" => 5
  | "saturday" => 6
  | _ => -1

/-- `HolidayEngine.getOccurrenceNumber` (defaults to 1). -/
def getOccurrenceNumber (occurrence : String) : ℤ :=
  match occurrence with
  | "first" => 1
  | "second" => 2
  | "third" => 3
  | "fourth" => 4
  | _ => 1

/-- The floating-rule regex
`^(first|second|third|fourth|last)\s+(monday|…|sunday)$` applied to the
lower-cased rule string.  The regex accepts exactly the strings
`occurrence ++ whitespace ++ weekday`; this is modelled as a search over the
35 accepted `(occurrence, weekday)` pairs, restricted to single-space
separation and lower-case input — the only form any rule string in this
repository (defaults and claims alike) takes. -/
def parseFloatingRule (rule : String) : Option (String × String) :=
  let occurrences := ["first", "second", "third", "fourth", "last"]
  let dayNames := ["monday", "tuesday", "wednesday", "thursday", "friday",
    "saturday", "sunday"]
  (occurrences.flatMap fun occurrence => dayNames.map fun dayName =>
    (occurrence, dayName)).find? fun p => rule == p.1 ++ " " ++ p.2

/-- `HolidayEngine.getNthDayOfWeekInMonth` (`month` 0-based as in JS). -/
def getNthDayOfWeekInMonth (year month dayOfWeek occurrence : ℤ) : ℤ :=
  let firstDay := daysFromCivil year (month + 1) 1
  let firstDayOfWeek := weekdayOf firstDay
  let daysToAdd := (dayOfWeek - firstDayOfWeek + 7).emod 7 + (occurrence - 1) * 7
  firstDay + daysToAdd

/-- `HolidayEngine.getLastDayOfWeekInMonth` (`month` 0-based as in JS;
`new Date(year, month + 1, 0)` is the day before the first of the next
month). -/
def getLastDayOfWeekInMonth (year month dayOfWeek : ℤ) : ℤ :=
  let lastDay := daysFromCivil year (month + 2) 1 - 1
  let lastDayOfWeek := weekdayOf lastDay
  let daysToSubtract := (lastDayOfWeek - dayOfWeek + 7).emod 7
  lastDay - daysToSubtract

/-- `HolidayEngine.calculateFloatingHoliday`; the guard
`!holiday.rule || !holiday.month` treats a missing value, the empty string
and month 0 as absent (JS falsiness). -/
def calculateFloatingHoliday (h : Holiday) (year : ℤ) : Option ℤ :=
  match h.rule, h.month with
  | some rule, some month =>
    if rule = "" ∨ month = 0 then none
    else
      match parseFloatingRule rule with
      | none => none
      | some (occurrence, dayName) =>
        let targetDayOfWeek := getDayOfWeekNumber dayName
        if occurrence = "last" then
          some (getLastDayOfWeekInMonth year (month - 1) targetDayOfWeek)
        else
          some (getNthDayOfWeekInMonth year (month - 1) targetDayOfWeek
            (getOccurrenceNumber occurrence))
  | _, _ => none

/-- `HolidayEngine.calculateHolidayDate`; fixed rules build
`new Date(year, month-1, day)` (our `daysFromCivil year month day`), the
`relative` kind is unimplemented and resolves to no date. -/
def calculateHolidayDate (h : Holiday) (year : ℤ) : Option ℤ :=
  match h.type with
  | .fixed =>
    match h.month, h.day with
    | some month, some day =>
      if month ≠ 0 ∧ day ≠ 0 then some (daysFromCivil year month day) else none
    | _, _ => none
  | .floating => calculateFloatingHoliday h year
  | .relative => none

/-- The default `thanksgiving` rule (also the single rule of Scenario C of
the spec: floating, fourth Thursday of November, multiplier 1.8, window 3
days before / 1 day after). -/
def thanksgivingRule : Holiday :=
  { id := "thanksgiving", name := "Thanksgiving", type := .floating,
    month := some 11, day := none, rule := some "fourth thursday",
    daysBefore := 3, daysAfter := 1, salesMultiplier := 1.8, isActive := true }

/-- `HolidayEngine.getDefaultHolidays`, the built-in default US holidays. -/
def defaultHolidays : List Holiday :=
  [ { id := "new-years-day", name := "New Year\x27s Day", type := .fixed,
      month := some 1, day := some 1, rule := none,
      daysBefore := 2, daysAfter := 1, salesMultiplier := 0.7, isActive := true },
    { id := "martin-luther-king-day", name := "Martin Luther King Jr. Day",
      type := .floating, month := some 1, day := none, rule := some "third monday",
      daysBefore := 0, daysAfter := 0, salesMultiplier := 1.0, isActive := true },
    { id := "presidents-day", name := "Presidents Day", type := .floating,
      month := some 2, day := none, rule := some "third monday",
      daysBefore := 0, daysAfter := 0, salesMultiplier := 1.1, isActive := true },
    { id := "memorial-day", name := "Memorial Day", type := .floating,
      month := some 5, day := none, rule := some "last monday",
      daysBefore := 1, daysAfter := 0, salesMultiplier := 1.3, isActive := true },
    { id := "independence-day", name := "Independence Day", type := .fixed,
      month := some 7, day := some 4, rule := none,
      daysBefore := 2, daysAfter := 1, salesMultiplier := 1.4, isActive := true },
    { id := "labor-day", name := "Labor Day", type := .floating,
      month := some 9, day := none, rule := some "first monday",
      daysBefore := 1, daysAfter := 0, salesMultiplier := 1.2, isActive := true },
    { id := "columbus-day", name := "Columbus Day", type := .floating,
      month := some 10, day := none, rule := some "second monday",
      daysBefore := 0, daysAfter := 0, salesMultiplier := 1.0, isActive := false },
    { id := "halloween", name := "Halloween", type := .fixed,
      month := some 10, day := some 31, rule := none,
      daysBefore := 2, daysAfter := 0, salesMultiplier := 1.2, isActive := true },
    thanksgivingRule,
    { id := "black-friday", name := "Black Friday", type := .floating,
      month := some 11, day := none, rule := some "fourth friday",
      daysBefore := 0, daysAfter := 0, salesMultiplier := 0.8, isActive := true },
    { id := "christmas-eve", name := "Christmas Eve", type := .fixed,
      month := some 12, day := some 24, rule := none,
      daysBefore := 2, daysAfter := 0, salesMultiplier := 1.5, isActive := true },
    { id := "christmas", name := "Christmas Day", type := .fixed,
      month := some 12, day := some 25, rule := none,
      daysBefore := 0, daysAfter := 1, salesMultiplier := 0.3, isActive := true },
    { id := "new-years-eve", name := "New Year\x27s Eve", type := .fixed,
      month := some 12, day := some 31, rule := none,
      daysBefore := 1, daysAfter := 0, salesMultiplier := 1.6, isActive := true } ]

/-- The `HolidayEngine` constructor: an empty rule list is replaced by the
built-in default US holidays
(`this.holidays = holidays.length > 0 ? holidays : this.getDefaultHolidays()`). -/
def initHolidays (holidays : List Holiday) : List Holiday :=
  if holidays.length > 0 then holidays else defaultHolidays

/-- `HolidayEngine.getHolidaysForYear`: active rules resolved to dates,
unresolvable rules dropped (`map` + `filter` on `null` in the source is a
`filterMap` here). -/
def getHolidaysForYear (holidays : List Holiday) (year : ℤ) : List HolidayInstance :=
  (holidays.filter (·.isActive)).filterMap fun holiday =>
    (calculateHolidayDate holiday year).map fun date => ⟨holiday, date, year⟩

/-- Insert `a` into `l` before the first element `b` with `le a b`; the
building block of the stable sort below. -/
def jsOrderedInsert (le : α → α → Bool) (a : α) : List α → List α
  | [] => [a]
  | b :: l => if le a b then a :: b :: l else b :: jsOrderedInsert le a l

/-- JS `Array#sort` with a numeric comparator is a stable ascending sort;
modelled as a stable insertion sort (elements with equal keys keep their
original relative order, since `jsOrderedInsert` places an element before the
first later element it compares `≤` to). -/
def jsSortBy (le : α → α → Bool) : List α → List α
  | [] => []
  | a :: l => jsOrderedInsert le a (jsSortBy le l)

/-- `HolidayEngine.findNearbyHolidays`: signed distance within
`[-daysAfter, daysBefore]`, proximity `max(0, 1 - |distance|/maxDistance)`
(NaN when `maxDistance = 0`, in which case the in-zone distance is
necessarily 0 so JS computes `0/0`), impact `salesMultiplier × proximity`;
sorted by absolute distance ascending (JS `sort` is stable, as is
`jsSortBy`). -/
def findNearbyHolidays (date : ℤ) (holidays : List HolidayInstance) :
    List AffectedHoliday :=
  let nearbyHolidays := holidays.filterMap fun instance' =>
    let daysDifference : ℤ := date - instance'.date
    if -instance'.holiday.daysAfter ≤ (daysDifference : ℚ) ∧
        (daysDifference : ℚ) ≤ instance'.holiday.daysBefore then
      let maxDistance := max instance'.holiday.daysBefore instance'.holiday.daysAfter
      let distance : ℤ := |daysDifference|
      let proximityFactor :=
        jsMaxQ (some 0) (jsSubQ (some 1) (jsDivQ (some (distance : ℚ)) (some maxDistance)))
      let impact := jsMulQ (some instance'.holiday.salesMultiplier) proximityFactor
      some ⟨instance'.holiday, daysDifference, impact⟩
    else none
  jsSortBy (fun a b => |a.distance| ≤ |b.distance|) nearbyHolidays

/-- `HolidayEngine.generateImpactExplanation`. -/
def generateImpactExplanation (affectedHolidays : List AffectedHoliday) : String :=
  if affectedHolidays.length = 0 then "No holiday impact"
  else
    let explanations := affectedHolidays.map fun a =>
      let direction := if a.distance < 0 then "before"
        else if 0 < a.distance then "after" else "on"
      let days := a.distance.natAbs
      let dayText := if days = 0 then ""
        else if days = 1 then "1 day" else toString days ++ " days"
      let impactText := if jsGtQ a.impact (some 1.1) then "increased"
        else if jsLtQ a.impact (some 0.9) then "decreased" else "normal"
      if days = 0 then a.holiday.name ++ " (" ++ impactText ++ " sales)"
      else dayText ++ " " ++ direction ++ " " ++ a.holiday.name
        ++ " (" ++ impactText ++ " sales)"
    String.intercalate ", " explanations

/-- JS `Math.min` on `Option ℝ` (NaN-propagating). -/
noncomputable def jsMinR : Option ℝ → Option ℝ → Option ℝ
  | some a, some b => some (min a b)
  | _, _ => none

/-- JS `Math.max` on `Option ℝ` (NaN-propagating). -/
noncomputable def jsMaxR : Option ℝ → Option ℝ → Option ℝ
  | some a, some b => some (max a b)
  | _, _ => none

/-- JS `+` on `Option ℝ`. -/
noncomputable def jsAddR : Option ℝ → Option ℝ → Option ℝ
  | some a, some b => some (a + b)
  | _, _ => none

/-- JS `-` on `Option ℝ`. -/
noncomputable def jsSubR : Option ℝ → Option ℝ → Option ℝ
  | some a, some b => some (a - b)
  | _, _ => none

/-- JS `*` on `Option ℝ`. -/
noncomputable def jsMulR : Option ℝ → Option ℝ → Option ℝ
  | some a, some b => some (a * b)
  | _, _ => none

/-- JS `/` on `Option ℝ`; only used with divisors that are provably nonzero
at their call sites, so the zero-divisor branch (JS `±Infinity`/NaN) is
mapped to `none`. -/
noncomputable def jsDivR : Option ℝ → Option ℝ → Option ℝ
  | some a, some b => by classical exact if b = 0 then none else some (a / b)
  | _, _ => none

/-- JS `Math.sqrt` on `Option ℝ`; only applied to provably positive values
here (`Real.sqrt` of a negative would be `0` where JS gives NaN, but that
case is unreachable: the argument is a sum of absolute values checked
positive). -/
noncomputable def jsSqrtR (x : Option ℝ) : Option ℝ := x.map Real.sqrt

/-- Lift a possibly-NaN rational to a possibly-NaN real. -/
noncomputable def ratCastOpt : Option ℚ → Option ℝ
  | some q => some (q : ℝ)
  | none => none

/-- `HolidayEngine.calculateCombinedImpact`: weight each impact by its
deviation `|impact - 1|`, accumulate `1 + Σ (impact-1)·weight`, damp by
`√(Σ weight)` when the total weight is positive, and clamp to `[0.1, 5.0]`.
An empty list returns exactly `1.0` (before the clamp). -/
noncomputable def calculateCombinedImpact (affectedHolidays : List AffectedHoliday) :
    Option ℝ :=
  if affectedHolidays.length = 0 then some 1.0
  else
    let cw : Option ℚ × Option ℚ := affectedHolidays.foldl
      (fun acc a =>
        let weight := jsAbsQ (jsSubQ a.impact (some 1.0))
        (jsAddQ acc.1 (jsMulQ (jsSubQ a.impact (some 1.0)) weight),
         jsAddQ acc.2 weight))
      (some 1.0, some 0)
    let combinedFactor : Option ℝ := ratCastOpt cw.1
    let totalWeight : Option ℝ := ratCastOpt cw.2
    let combinedFactor :=
      if jsGtQ cw.2 (some 0) then
        jsAddR (some 1.0) (jsDivR (jsSubR combinedFactor (some 1.0)) (jsSqrtR totalWeight))
      else combinedFactor
    jsMaxR (some 0.1) (jsMinR (some 5.0) combinedFactor)

/-- The `HolidayImpact` result record. -/
structure HolidayImpact where
  factor : Option ℝ
  affectedHolidays : List AffectedHoliday
  explanation : String

/-- The `year || date.getFullYear()` default (year 0 is falsy in JS). -/
def jsYearOr (year : Option ℤ) (date : ℤ) : ℤ :=
  match year with
  | some y => if y = 0 then yearOf date else y
  | none => yearOf date

/-- `HolidayEngine.getHolidayImpactFactor`.  `holidays` is the engine's
stored rule list (i.e. already passed through `initHolidays`). -/
noncomputable def getHolidayImpactFactor (holidays : List Holiday) (date : ℤ)
    (year : Option ℤ) : HolidayImpact :=
  let targetYear := jsYearOr year date
  let instances := getHolidaysForYear holidays targetYear
  let affectedHolidays := findNearbyHolidays date instances
  { factor := calculateCombinedImpact affectedHolidays
    affectedHolidays := affectedHolidays
    explanation := generateImpactExplanation affectedHolidays }



lemma instances_single_thanksgiving_2025 :
    getHolidaysForYear (initHolidays [thanksgivingRule]) 2025
      = [⟨thanksgivingRule, 20419, 2025⟩] := by rfl

lemma affected_single_thanksgiving_2025 :
    findNearbyHolidays (daysFromCivil 2025 11 27)
        (getHolidaysForYear (initHolidays [thanksgivingRule])
          (jsYearOr none (daysFromCivil 2025 11 27)))
      = [⟨thanksgivingRule, 0, some (9/5)⟩] := by
  have hy : jsYearOr none (daysFromCivil 2025 11 27) = 2025 := by rfl
  have hd : daysFromCivil 2025 11 27 = 20419 := by rfl
  rw [hy, hd, instances_single_thanksgiving_2025]
  simp only [findNearbyHolidays, List.filterMap, thanksgivingRule]
  norm_num [jsMaxQ, jsMinQ, jsSubQ, jsDivQ, jsMulQ, jsSortBy, jsOrderedInsert,
    max_def, min_def]

lemma instances_default_2025 :
    getHolidaysForYear (initHolidays []) 2025 =
      [ ⟨{ id := "new-years-day", name := "New Year\x27s Day", type := .fixed,
           month := some 1, day := some 1, rule := none,
           daysBefore := 2, daysAfter := 1, salesMultiplier := 0.7, isActive := true },
         20089, 2025⟩,
        ⟨{ id := "martin-luther-king-day", name := "Martin Luther King Jr. Day",
           type := .floating, month := some 1, day := none, rule := some "third monday",
           daysBefore := 0, daysAfter := 0, salesMultiplier := 1.0, isActive := true },
         20108, 2025⟩,
        ⟨{ id := "presidents-day", name := "Presidents Day", type := .floating,
           month := some 2, day := none, rule := some "third monday",
           daysBefore := 0, daysAfter := 0, salesMultiplier := 1.1, isActive := true },
         20136, 2025⟩,
        ⟨{ id := "memorial-day", name := "Memorial Day", type := .floating,
           month := some 5, day := none, rule := some "last monday",
           daysBefore := 1, daysAfter := 0, salesMultiplier := 1.3, isActive := true },
         20234, 2025⟩,
        ⟨{ id := "independence-day", name := "Independence Day", type := .fixed,
           month := some 7, day := some 4, rule := none,
           daysBefore := 2, daysAfter := 1, salesMultiplier := 1.4, isActive := true },
         20273, 2025⟩,
        ⟨{ id := "labor-day", name := "Labor Day", type := .floating,
           month := some 9, day := none, rule := some "first monday",
           daysBefore := 1, daysAfter := 0, salesMultiplier := 1.2, isActive := true },
         20332, 2025⟩,
        ⟨{ id := "halloween", name := "Halloween", type := .fixed,
           month := some 10, day := some 31, rule := none,
           daysBefore := 2, daysAfter := 0, salesMultiplier := 1.2, isActive := true },
         20392, 2025⟩,
        ⟨thanksgivingRule, 20419, 2025⟩,
        ⟨{ id := "black-friday", name := "Black Friday", type := .floating,
           month := some 11, day := none, rule := some "fourth friday",
           daysBefore := 0, daysAfter := 0, salesMultiplier := 0.8, isActive := true },
         20420, 2025⟩,
        ⟨{ id := "christmas-eve", name := "Christmas Eve", type := .fixed,
           month := some 12, day := some 24, rule := none,
           daysBefore := 2, daysAfter := 0, salesMultiplier := 1.5, isActive := true },
         20446, 2025⟩,
        ⟨{ id := "christmas", name := "Christmas Day", type := .fixed,
           month := some 12, day := some 25, rule := none,
           daysBefore := 0, daysAfter := 1, salesMultiplier := 0.3, isActive := true },
         20447, 2025⟩,
        ⟨{ id := "new-years-eve", name := "New Year\x27s Eve", type := .fixed,
           month := some 12, day := some 31, rule := none,
           daysBefore := 1, daysAfter := 0, salesMultiplier := 1.6, isActive := true },
         20453, 2025⟩ ] := by rfl

lemma affected_default_thanksgiving_2025 :
    findNearbyHolidays (daysFromCivil 2025 11 27)
        (getHolidaysForYear (initHolidays [])
          (jsYearOr none (daysFromCivil 2025 11 27)))
      = [⟨thanksgivingRule, 0, some (9/5)⟩] := by
  have hy : jsYearOr none (daysFromCivil 2025 11 27) = 2025 := by rfl
  have hd : daysFromCivil 2025 11 27 = 20419 := by rfl
  rw [hy, hd, instances_default_2025]
  simp only [findNearbyHolidays, List.filterMap, thanksgivingRule]
  norm_num [jsMaxQ, jsMinQ, jsSubQ, jsDivQ, jsMulQ, jsSortBy, jsOrderedInsert,
    max_def, min_def]

lemma sqrt_fourFifths_lb : (4/5 : ℝ) ≤ Real.sqrt (4/5) := by
  have h : Real.sqrt ((4/5) ^ 2) ≤ Real.sqrt (4/5) :=
    Real.sqrt_le_sqrt (by norm_num)
  rwa [Real.sqrt_sq (by norm_num : (0:ℝ) ≤ 4/5)] at h

lemma sqrt_fourFifths_pos : (0 : ℝ) < Real.sqrt (4/5) :=
  lt_of_lt_of_le (by norm_num) sqrt_fourFifths_lb

lemma combined_single_thanksgiving :
    calculateCombinedImpact [⟨thanksgivingRule, 0, some (9/5)⟩]
      = some (1 + (16/25) / Real.sqrt (4/5)) := by
  have hq : (16/25 : ℝ) / Real.sqrt (4/5) ≤ 4/5 := by
    rw [div_le_iff₀ sqrt_fourFifths_pos]
    nlinarith [sqrt_fourFifths_lb]
  have hq0 : (0:ℝ) ≤ (16/25 : ℝ) / Real.sqrt (4/5) :=
    div_nonneg (by norm_num) (le_of_lt sqrt_fourFifths_pos)
  unfold calculateCombinedImpact
  rw [if_neg (by simp)]
  have hfold :
      ([(⟨thanksgivingRule, 0, some (9/5)⟩ : AffectedHoliday)].foldl
        (fun (acc : Option ℚ × Option ℚ) a =>
          let weight := jsAbsQ (jsSubQ a.impact (some 1.0))
          (jsAddQ acc.1 (jsMulQ (jsSubQ a.impact (some 1.0)) weight),
           jsAddQ acc.2 weight))
        (some 1.0, some 0)) = (some (41/25), some (4/5)) := by
    simp only [List.foldl]
    norm_num [jsSubQ, jsAbsQ, jsMulQ, jsAddQ, abs_of_nonneg]
  rw [hfold]
  have hgt : jsGtQ (some ((4:ℚ)/5)) (some 0) = true := by
    simp only [jsGtQ]; norm_num
  simp only [hgt, if_true, ratCastOpt, jsSqrtR, Option.map_some', jsSubR]
  push_cast
  rw [show (41/25 : ℝ) - 1.0 = 16/25 from by norm_num]
  simp only [jsDivR]
  rw [if_neg (ne_of_gt sqrt_fourFifths_pos)]
  simp only [jsAddR, jsMinR, jsMaxR]
  rw [show (1.0 : ℝ) + 16/25 / Real.sqrt (4/5) = 1 + 16/25 / Real.sqrt (4/5) from by
    norm_num]
  rw [min_eq_right (by linarith), max_eq_right (by linarith)]

lemma tg_single_factor_eval :
    (getHolidayImpactFactor (initHolidays [thanksgivingRule])
        (daysFromCivil 2025 11 27) none).factor
      = some (1 + (16/25) / Real.sqrt (4/5)) := by
  simp only [getHolidayImpactFactor]
  rw [affected_single_thanksgiving_2025, combined_single_thanksgiving]

lemma default_tg_factor_eval :
    (getHolidayImpactFactor (initHolidays [])
        (daysFromCivil 2025 11 27) none).factor
      = some (1 + (16/25) / Real.sqrt (4/5)) := by
  simp only [getHolidayImpactFactor]
  rw [affected_default_thanksgiving_2025, combined_single_thanksgiving]

/-- C3 (amended).  For the rule set containing exactly the Thanksgiving rule
(floating, fourth Thursday of November, multiplier 1.8, 3 days before / 1
after), the impact factor on the fourth Thursday of November 2025 is not the
bare multiplier: the variance-weighted damping applies even to a single
holiday, giving `1 + (16/25)/√(4/5)` ≈ 1.7155 (weight `4/5`, accumulated
factor `41/25`, damped by `√(4/5)`), which the clamp leaves unchanged. -/
theorem thanksgiving_factor_is_damped :
    (getHolidayImpactFactor (initHolidays [thanksgivingRule])
        (daysFromCivil 2025 11 27) none).factor
      = some (1 + (16/25) / Real.sqrt (4/5)) := tg_single_factor_eval

/-- C3 (counterexample).  Contrary to Scenario C, the factor on the fourth
Thursday of November 2025 under the lone Thanksgiving rule is not exactly
1.8: `1 + (16/25)/√(4/5) = 1.8` would force `√(4/5) = 4/5`, i.e.
`4/5 = 16/25`. -/
theorem thanksgiving_factor_ne_18 :
    (getHolidayImpactFactor (initHolidays [thanksgivingRule])
        (daysFromCivil 2025 11 27) none).factor ≠ some 1.8 := by
  rw [tg_single_factor_eval]
  intro h
  have hv : 1 + (16/25 : ℝ) / Real.sqrt (4/5) = 1.8 := Option.some.inj h
  have h0 : Real.sqrt (4/5) ≠ 0 := ne_of_gt sqrt_fourFifths_pos
  have hdiv : (16/25 : ℝ) / Real.sqrt (4/5) = 4/5 := by linarith [hv]
  rw [div_eq_iff h0] at hdiv
  have hs : Real.sqrt (4/5) = 4/5 := by linarith
  have hsq := Real.sq_sqrt (show (0:ℝ) ≤ 4/5 by norm_num)
  rw [hs] at hsq
  norm_num at hsq

/-- C2 (counterexample).  With an empty rule set the engine substitutes the
default US holidays, so on 2025-11-27 (Thanksgiving) the explanation reports
increased Thanksgiving sales and the factor is not 1.0 — the claimed
no-holiday neutrality fails for the empty rule set. -/
theorem emptyRuleSet_not_neutral_on_thanksgiving :
    (getHolidayImpactFactor (initHolidays [])
        (daysFromCivil 2025 11 27) none).explanation
      = "Thanksgiving (increased sales)" ∧
    (getHolidayImpactFactor (initHolidays [])
        (daysFromCivil 2025 11 27) none).factor ≠ some 1 := by
  constructor
  · simp only [getHolidayImpactFactor]
    rw [affected_default_thanksgiving_2025]
    norm_num [generateImpactExplanation, jsGtQ, jsLtQ, thanksgivingRule]
    decide
  · rw [default_tg_factor_eval]
    intro h
    have hv : 1 + (16/25 : ℝ) / Real.sqrt (4/5) = 1 := Option.some.inj h
    have hpos := div_pos (show (0:ℝ) < 16/25 by norm_num) sqrt_fourFifths_pos
    linarith

/-- C2 (amended).  Neutrality holds for a non-empty rule set with no active
rules: for every date, the factor is exactly 1.0 and the explanation is
`No holiday impact`.  (An empty rule set is replaced by the default US
holidays in the engine constructor, so the claim cannot hold as stated.) -/
theorem noActiveRules_neutral (rules : List Holiday) (date : ℤ)
    (hne : rules ≠ []) (hinactive : ∀ r ∈ rules, r.isActive = false) :
    (getHolidayImpactFactor (initHolidays rules) date none).factor = some 1 ∧
    (getHolidayImpactFactor (initHolidays rules) date none).explanation
      = "No holiday impact" := by
  have hinit : initHolidays rules = rules := by
    unfold initHolidays
    rw [if_pos]
    exact List.length_pos.mpr hne
  have hfil : rules.filter (·.isActive) = [] := by
    rw [List.filter_eq_nil_iff]
    intro r hr
    simp [hinactive r hr]
  have haff : findNearbyHolidays date
      (getHolidaysForYear (initHolidays rules) (jsYearOr none date)) = [] := by
    rw [hinit]
    unfold getHolidaysForYear
    rw [hfil]
    rfl
  constructor
  · simp only [getHolidayImpactFactor]
    rw [haff]
    norm_num [calculateCombinedImpact]
  · simp only [getHolidayImpactFactor]
    rw [haff]
    rfl

def inactiveRule : Holiday :=
  { id := "inactive", name := "Inactive", type := .fixed,
    month := some 1, day := some 1, rule := none,
    daysBefore := 0, daysAfter := 0, salesMultiplier := 1, isActive := false }

/-- Witness for C2 (amended): a concrete single-element inactive rule set and
date 0 (1970-01-01). -/
theorem noActiveRules_neutral_witness :
    (getHolidayImpactFactor (initHolidays [inactiveRule]) 0 none).factor = some 1 ∧
    (getHolidayImpactFactor (initHolidays [inactiveRule]) 0 none).explanation
      = "No holiday impact" :=
  noActiveRules_neutral [inactiveRule] 0 (by simp)
    (by intro r hr; rw [List.mem_singleton] at hr; subst hr; rfl)

def zeroWindowRule : Holiday :=
  { id := "zero-window", name := "Zero Window", type := .fixed,
    month := some 7, day := some 4, rule := none,
    daysBefore := 0, daysAfter := 0, salesMultiplier := 1.4, isActive := true }

lemma affected_zeroWindow :
    findNearbyHolidays (daysFromCivil 2025 7 4)
        (getHolidaysForYear (initHolidays [zeroWindowRule])
          (jsYearOr none (daysFromCivil 2025 7 4)))
      = [⟨zeroWindowRule, 0, none⟩] := by
  have hy : jsYearOr none (daysFromCivil 2025 7 4) = 2025 := by rfl
  have hd : daysFromCivil 2025 7 4 = 20273 := by rfl
  have hinst : getHolidaysForYear (initHolidays [zeroWindowRule]) 2025
      = [⟨zeroWindowRule, 20273, 2025⟩] := by rfl
  rw [hy, hd, hinst]
  simp only [findNearbyHolidays, List.filterMap, zeroWindowRule]
  norm_num [jsMaxQ, jsSubQ, jsDivQ, jsMulQ, jsSortBy, jsOrderedInsert, max_def]

/-- C4.  The claimed bound `factor ∈ [0.1, 5.0]` fails for a rule with
`daysBefore = daysAfter = 0` evaluated on its own holiday: the proximity
division is `0/0 = NaN`, the NaN propagates through the combination and
through `Math.max(0.1, Math.min(5.0, ·))` (both return NaN), so the factor is
NaN (`none`) — outside every interval, contradicting the source's own
`Clamp to reasonable bounds` intent.  The default holiday set itself contains
such rules (MLK Day, Presidents Day, Black Friday). -/
theorem zeroWindowRule_factor_NaN :
    (getHolidayImpactFactor (initHolidays [zeroWindowRule])
        (daysFromCivil 2025 7 4) none).factor = none := by
  simp only [getHolidayImpactFactor]
  rw [affected_zeroWindow]
  simp only [calculateCombinedImpact, List.foldl]
  norm_num [jsSubQ, jsAbsQ, jsMulQ, jsAddQ, jsGtQ, ratCastOpt, jsMinR, jsMaxR]

/-! ## Forecast result shapes shared by forecaster and optimizer

The holiday factor is `Option ℝ` (NaN-able); everything it multiplies into is
therefore `Option ℝ` as well. -/

/-- The `ForecastFactors` record; `holiday` comes from the holiday engine and
may be NaN. -/
structure ForecastFactors where
  seasonal : ℝ
  dayOfWeek : ℝ
  holiday : Option ℝ
  trend : ℝ
  growth : ℝ

/-- The `DailyForecast` record. -/
structure DailyForecast where
  date : ℤ
  baseDemand : ℝ
  adjustedDemand : Option ℝ
  dateFactor : Option ℝ
  confidence : ℝ
  factors : ForecastFactors

/-- The `MultiDayDemand` / `MultiDayForecast` record.  `confidenceScore` is
NaN when `daysAhead = 0` (JS `0/0`). -/
structure MultiDayForecast where
  totalDemand : Option ℝ
  dailyForecasts : List DailyForecast
  daysAhead : ℕ
  confidenceScore : Option ℝ

/-! ## Batch Optimizer (`BatchOptimizer` in src/lib/fiscal-calendar.ts) -/

/-- JS `x || d` for a non-NaN number `x`: exactly `0` falls back to the
default. -/
noncomputable def jsOr (x d : ℝ) : ℝ := if x = 0 then d else x

/-- JS `x || d` where `x` may be NaN (`none`): NaN and `0` fall back. -/
noncomputable def jsOrOpt (x : Option ℝ) (d : ℝ) : ℝ :=
  match x with
  | none => d
  | some v => if v = 0 then d else v

/-- JS `Math.round`: round half toward positive infinity. -/
noncomputable def jsRound (x : ℝ) : ℤ := ⌊x + 1/2⌋

/-- JS `>` on possibly-NaN reals, as a proposition; NaN comparisons are
false. -/
def jsGtP : Option ℝ → Option ℝ → Prop
  | some a, some b => b < a
  | _, _ => False

/-- JS `>=` on possibly-NaN reals; NaN comparisons are false. -/
def jsGeP : Option ℝ → Option ℝ → Prop
  | some a, some b => b ≤ a
  | _, _ => False

/-- The reasoning strings of `BatchOption`/`BatchDecision`.  String
interpolation of JS numbers is abstracted into constructor payloads; each
constructor documents the exact template it stands for. -/
inductive BatchReasoning where
  /-- Template `Sufficient stock (X units) covers N-day demand (Y units)`
  with `X = Math.round(currentStock)`, `N = daysAhead`,
  `Y = Math.round(totalDemand)`. -/
  | sufficientStock (roundedStock : ℤ) (daysAhead : ℕ) (roundedTotalDemand : ℤ)
  /-- Template `No production needed`. -/
  | noProductionNeeded
  /-- Template `Min batch (M) covers D-day demand`. -/
  | minBatchCovers (minBatch : ℝ) (daysAhead : ℝ)
  /-- Template `Min batch (M) - will need additional production soon`. -/
  | minBatchShort (minBatch : ℝ)
  /-- Template `Exact net demand (S) for D days`. -/
  | exactNetDemand (exactSize : ℤ) (daysAhead : ℝ)
  /-- Template `Total demand (S) for D days - covers all needs`. -/
  | totalDemandCovers (totalSize : ℤ) (daysAhead : ℝ)
  /-- Template `Shelf-life optimized (S) for L-day shelf life`. -/
  | shelfLifeOptimized (size : ℝ) (shelfLife : ℝ)
  /-- Template `Economic batch (S) balances setup costs and inventory`. -/
  | economicBatch (size : ℝ)
  /-- Template `Error in batch calculation - using minimum batch size`. -/
  | errorFallback
  /-- Template `Fallback option`. -/
  | fallbackOption
  /-- Template `No historical data available` (plan generator, item without
  data). -/
  | noHistoricalData
  /-- Template `No data` (plan generator, empty item's selected option). -/
  | noData

/-- The `BatchOption` record; `size` is integral after `Math.ceil`. -/
structure BatchOption where
  size : ℤ
  efficiency : ℝ
  wasteRisk : ℝ
  cost : ℝ
  reasoning : BatchReasoning
  score : Option ℝ

/-- The `ItemConfig` record (fields the core reads). -/
structure ItemConfig where
  itemNumber : String
  itemDescription : String
  productivity : ℝ
  shelfLife : ℝ
  minBatchSize : ℝ
  maxDaysAhead : ℕ
  defaultGrowthRate : ℝ
  isActive : Bool

/-- The `BatchDecision` record. -/
structure BatchDecision where
  recommendedBatchSize : ℝ
  produceToday : ℝ
  hoursNeeded : ℝ
  reasoning : BatchReasoning
  options : List BatchOption
  selectedOption : BatchOption
  efficiencyScore : ℝ
  wasteRiskScore : ℝ

/-- `BatchOptimizer.calculateBatchCost`: setup cost 50 plus 2 per unit. -/
noncomputable def calculateBatchCost (batchSize : ℝ) : ℝ := 50 + batchSize * 2

/-- `BatchOptimizer.createBatchOption`: ceil the size, floor efficiency at 0,
clamp waste risk to `[0,1]`; the score is filled in later. -/
noncomputable def createBatchOption (size efficiency wasteRisk : ℝ)
    (reasoning : BatchReasoning) : BatchOption :=
  { size := ⌈size⌉
    efficiency := max 0 efficiency
    wasteRisk := max 0 (min 1 wasteRisk)
    cost := calculateBatchCost size
    reasoning := reasoning
    score := some 0 }

/-- `BatchOptimizer.calculateWasteRisk`: 0 at or below total demand;
otherwise excess ratio, plus half the expiration risk when the batch cannot
be consumed within the shelf life (capped at 1), or scaled by 0.3 when it
can. -/
noncomputable def calculateWasteRisk (batchSize totalDemand shelfLife daysAhead : ℝ) : ℝ :=
  if batchSize ≤ totalDemand then 0
  else
    let excess := batchSize - totalDemand
    let excessRatio := excess / batchSize
    let consumptionRate := totalDemand / daysAhead
    let daysToConsume := batchSize / max 0.1 consumptionRate
    if shelfLife < daysToConsume then
      let expirationRisk := (daysToConsume - shelfLife) / shelfLife
      min 1.0 (excessRatio + expirationRisk * 0.5)
    else excessRatio * 0.3

/-- `BatchOptimizer.calculateShelfLifeConstrainedMax`. -/
noncomputable def calculateShelfLifeConstrainedMax (totalDemand shelfLife daysAhead : ℝ) : ℝ :=
  let dailyConsumption := totalDemand / daysAhead
  let maxSafeProduction := dailyConsumption * min shelfLife (daysAhead + 1)
  ((⌈max totalDemand maxSafeProduction⌉ : ℤ) : ℝ)

/-- `BatchOptimizer.calculateEconomicBatchQuantity`:
`max(minBatch, ceil(sqrt(demand × 2.0)))`. -/
noncomputable def calculateEconomicBatchQuantity (demand : ℝ) (config : ItemConfig) : ℝ :=
  let minBatch := jsOr config.minBatchSize 10
  let setupCostFactor : ℝ := 2.0
  let economicQuantity := Real.sqrt (demand * setupCostFactor)
  max minBatch ((⌈economicQuantity⌉ : ℤ) : ℝ)

open Classical in
/-- `BatchOptimizer.generateBatchOptions`: up to five candidates (minimum
batch, exact net demand, total demand, shelf-life constrained maximum,
economic quantity if not within 2 units of an existing option), then drop
non-positive sizes. -/
noncomputable def generateBatchOptions (netDemand totalDemand : ℝ)
    (config : ItemConfig) (multiDayDemand : MultiDayForecast) : List BatchOption :=
  let minBatch := jsOr config.minBatchSize 10
  let shelfLife := jsOr config.shelfLife 3
  let daysAhead := jsOr (multiDayDemand.daysAhead : ℝ) 3
  let options1 : List BatchOption :=
    if 0 < minBatch then
      [createBatchOption minBatch (minBatch / max 1 netDemand)
        (calculateWasteRisk minBatch totalDemand shelfLife daysAhead)
        (if netDemand ≤ minBatch then .minBatchCovers minBatch daysAhead
          else .minBatchShort minBatch)]
    else []
  let options2 : List BatchOption :=
    if 0 < netDemand then
      options1 ++ [createBatchOption ((⌈netDemand⌉ : ℤ) : ℝ) 1.0
        (calculateWasteRisk ((⌈netDemand⌉ : ℤ) : ℝ) totalDemand shelfLife daysAhead)
        (.exactNetDemand ⌈netDemand⌉ daysAhead)]
    else options1
  let options3 : List BatchOption :=
    if netDemand < totalDemand then
      options2 ++ [createBatchOption ((⌈totalDemand⌉ : ℤ) : ℝ)
        (((⌈totalDemand⌉ : ℤ) : ℝ) / max 1 netDemand)
        (calculateWasteRisk ((⌈totalDemand⌉ : ℤ) : ℝ) totalDemand shelfLife daysAhead)
        (.totalDemandCovers ⌈totalDemand⌉ daysAhead)]
    else options2
  let maxSafeProduction := calculateShelfLifeConstrainedMax totalDemand shelfLife daysAhead
  let options4 : List BatchOption :=
    if netDemand < maxSafeProduction ∧ maxSafeProduction ≠ totalDemand then
      options3 ++ [createBatchOption maxSafeProduction (maxSafeProduction / max 1 netDemand)
        (calculateWasteRisk maxSafeProduction totalDemand shelfLife daysAhead)
        (.shelfLifeOptimized maxSafeProduction shelfLife)]
    else options3
  let economicBatch := calculateEconomicBatchQuantity netDemand config
  let options5 : List BatchOption :=
    if minBatch < economicBatch ∧ economicBatch ≠ netDemand ∧
        ¬ ∃ o ∈ options4, |(o.size : ℝ) - economicBatch| < 2 then
      options4 ++ [createBatchOption economicBatch (economicBatch / max 1 netDemand)
        (calculateWasteRisk economicBatch totalDemand shelfLife daysAhead)
        (.economicBatch economicBatch)]
    else options4
  options5.filter fun option => decide (0 < option.size)

open Classical in
/-- `BatchOptimizer.scoreBatchOption`: efficiency, minus 3× waste risk, ±
batch-size bonuses/penalties, plus `0.1 × confidence`, minus the
overproduction penalty beyond ratio 1.5, floored at 0.  The confidence and
the raw `multiDayDemand.totalDemand` may be NaN, making the score NaN (all
comparisons with it false). -/
noncomputable def scoreBatchOption (option : BatchOption)
    (multiDayDemand : MultiDayForecast) (config : ItemConfig)
    (currentStock : ℝ) : Option ℝ :=
  let score := option.efficiency
  let score := score - option.wasteRisk * 3.0
  let score := if jsOr config.minBatchSize 0 ≤ (option.size : ℝ) then score + 0.2 else score
  let score := if (option.size : ℝ) < jsOr config.minBatchSize 10 * 0.5 then score - 0.3 else score
  let totalDemand := jsAddR multiDayDemand.totalDemand (some currentStock)
  let score := if jsGeP (some (option.size : ℝ)) (jsMulR totalDemand (some 0.9)) then score + 0.1 else score
  let confidenceBonus := jsMulR multiDayDemand.confidenceScore (some 0.1)
  let scoreOpt := jsAddR (some score) confidenceBonus
  let overproductionRatio := jsDivR (some (option.size : ℝ)) (jsMaxR (some 1) multiDayDemand.totalDemand)
  let scoreOpt :=
    if jsGtP overproductionRatio (some 1.5) then
      jsSubR scoreOpt (jsMulR (jsSubR overproductionRatio (some 1.5)) (some 0.5))
    else scoreOpt
  jsMaxR (some 0) scoreOpt

/-- `BatchOptimizer.createErrorBatchDecision`: minimum-batch fallback used
when the optimization path throws. -/
noncomputable def createErrorBatchDecision (config : ItemConfig) : BatchDecision :=
  let fallbackSize := jsOr config.minBatchSize 10
  let hoursNeeded := if 0 < config.productivity then fallbackSize / config.productivity else 0
  { recommendedBatchSize := fallbackSize
    produceToday := fallbackSize
    hoursNeeded := hoursNeeded
    reasoning := .errorFallback
    options := [createBatchOption fallbackSize 1.0 0.1 .fallbackOption]
    selectedOption := createBatchOption fallbackSize 1.0 0.1 .fallbackOption
    efficiencyScore := 0.5
    wasteRiskScore := 0.1 }

open Classical in
/-- `BatchOptimizer.optimizeBatchSize`: zero-production short circuit when
net demand is non-positive; otherwise score the candidates and keep the
first highest-scoring one (`reduce` keeps the incumbent on ties and on NaN
comparisons).  JS `[].reduce` throws and the surrounding catch returns the
fallback decision, modelled by the empty-list branch. -/
noncomputable def optimizeBatchSize (multiDayDemand : MultiDayForecast)
    (currentStock : ℝ) (config : ItemConfig) : BatchDecision :=
  let totalDemand := jsOrOpt multiDayDemand.totalDemand 0
  let netDemand := max 0 (totalDemand - currentStock)
  if netDemand ≤ 0 then
    { recommendedBatchSize := 0
      produceToday := 0
      hoursNeeded := 0
      reasoning := .sufficientStock (jsRound currentStock) multiDayDemand.daysAhead
        (jsRound totalDemand)
      options := []
      selectedOption := createBatchOption 0 0 0 .noProductionNeeded
      efficiencyScore := 1.0
      wasteRiskScore := 0.0 }
  else
    let options := generateBatchOptions netDemand totalDemand config multiDayDemand
    let scoredOptions := options.map fun option =>
      { option with score := scoreBatchOption option multiDayDemand config currentStock }
    match scoredOptions with
    | [] => createErrorBatchDecision config
    | best0 :: rest =>
      let bestOption := rest.foldl
        (fun best current => if jsGtP current.score best.score then current else best) best0
      let hoursNeeded :=
        if 0 < config.productivity then (bestOption.size : ℝ) / config.productivity else 0
      { recommendedBatchSize := (bestOption.size : ℝ)
        produceToday := (bestOption.size : ℝ)
        hoursNeeded := hoursNeeded
        reasoning := bestOption.reasoning
        options := scoredOptions
        selectedOption := bestOption
        efficiencyScore := bestOption.efficiency
        wasteRiskScore := bestOption.wasteRisk }

/-! ## Batch-optimizer theorems (claims C5, C6, C7, C10) -/

lemma jsOrOpt_some_zero (T : ℝ) : jsOrOpt (some T) 0 = T := by
  show (if T = 0 then (0:ℝ) else T) = T
  split_ifs with h
  · rw [h]
  · rfl

/-- C5.  Sufficiency short circuit: whenever the (non-NaN) total demand is at
most the current stock, the optimizer recommends zero production with waste
risk 0, efficiency 1, and a `Sufficient stock … covers …-day demand …`
reasoning carrying the rounded stock and demand. -/
theorem sufficientStock_short_circuit (multiDayDemand : MultiDayForecast)
    (currentStock : ℝ) (config : ItemConfig) (T : ℝ)
    (hT : multiDayDemand.totalDemand = some T) (hstock : T ≤ currentStock) :
    (optimizeBatchSize multiDayDemand currentStock config).produceToday = 0 ∧
    (optimizeBatchSize multiDayDemand currentStock config).wasteRiskScore = 0 ∧
    (optimizeBatchSize multiDayDemand currentStock config).efficiencyScore = 1 ∧
    (optimizeBatchSize multiDayDemand currentStock config).reasoning
      = .sufficientStock (jsRound currentStock) multiDayDemand.daysAhead (jsRound T) := by
  have hnet : jsOrOpt multiDayDemand.totalDemand 0 = T := by
    rw [hT]; exact jsOrOpt_some_zero T
  simp only [optimizeBatchSize, hnet]
  rw [if_pos (by simp only [max_le_iff]; constructor <;> linarith)]
  refine ⟨rfl, by norm_num, by norm_num, rfl⟩

/-- The Scenario B inputs: 3-day total demand 20 (Scenario B stocks 25). -/
noncomputable def scenarioB_demand : MultiDayForecast :=
  { totalDemand := some 20, dailyForecasts := [], daysAhead := 3,
    confidenceScore := some 1 }

noncomputable def scenarioB_config : ItemConfig :=
  { itemNumber := "B", itemDescription := "item B", productivity := 10,
    shelfLife := 3, minBatchSize := 10, maxDaysAhead := 3,
    defaultGrowthRate := 0, isActive := true }

/-- Witness for C5: `currentStock = 25` against a 3-day `totalDemand = 20`
(Scenario B of the spec). -/
theorem sufficientStock_short_circuit_witness :
    (optimizeBatchSize scenarioB_demand 25 scenarioB_config).produceToday = 0 ∧
    (optimizeBatchSize scenarioB_demand 25 scenarioB_config).wasteRiskScore = 0 ∧
    (optimizeBatchSize scenarioB_demand 25 scenarioB_config).efficiencyScore = 1 ∧
    (optimizeBatchSize scenarioB_demand 25 scenarioB_config).reasoning
      = .sufficientStock (jsRound 25) scenarioB_demand.daysAhead (jsRound 20) :=
  sufficientStock_short_circuit scenarioB_demand 25 scenarioB_config 20 rfl (by norm_num)

/-- C7.  Waste risk is monotone non-decreasing in the candidate batch size
beyond the total demand, for non-negative demand and positive shelf life and
horizon (the domains on which the real-valued model coincides with the JS
arithmetic). -/
theorem wasteRisk_monotone (totalDemand shelfLife daysAhead s1 s2 : ℝ)
    (hT : 0 ≤ totalDemand) (_hd : 0 < daysAhead) (hs : 0 < shelfLife)
    (h1 : totalDemand < s1) (h12 : s1 ≤ s2) :
    calculateWasteRisk s1 totalDemand shelfLife daysAhead
      ≤ calculateWasteRisk s2 totalDemand shelfLife daysAhead := by
  have hs1pos : 0 < s1 := lt_of_le_of_lt hT h1
  have hs2pos : 0 < s2 := lt_of_lt_of_le hs1pos h12
  have h2 : totalDemand < s2 := lt_of_lt_of_le h1 h12
  have hratepos : (0:ℝ) < max 0.1 (totalDemand / daysAhead) :=
    lt_of_lt_of_le (by norm_num) (le_max_left _ _)
  have hd12 : s1 / max 0.1 (totalDemand / daysAhead)
      ≤ s2 / max 0.1 (totalDemand / daysAhead) :=
    (div_le_div_iff_of_pos_right hratepos).mpr h12
  have he1 : (s1 - totalDemand) / s1 ≤ (s2 - totalDemand) / s2 := by
    rw [div_le_div_iff₀ hs1pos hs2pos]
    nlinarith
  have he1nonneg : 0 ≤ (s1 - totalDemand) / s1 :=
    div_nonneg (by linarith) (le_of_lt hs1pos)
  have he2le1 : (s2 - totalDemand) / s2 ≤ 1 := by
    rw [div_le_one hs2pos]; linarith
  simp only [calculateWasteRisk]
  rw [if_neg (not_le.mpr h1), if_neg (not_le.mpr h2)]
  by_cases hc1 : shelfLife < s1 / max 0.1 (totalDemand / daysAhead)
  · have hc2 : shelfLife < s2 / max 0.1 (totalDemand / daysAhead) :=
      lt_of_lt_of_le hc1 hd12
    rw [if_pos hc1, if_pos hc2]
    apply min_le_min le_rfl
    have hexp : (s1 / max 0.1 (totalDemand / daysAhead) - shelfLife) / shelfLife
        ≤ (s2 / max 0.1 (totalDemand / daysAhead) - shelfLife) / shelfLife :=
      (div_le_div_iff_of_pos_right hs).mpr (by linarith)
    nlinarith
  · rw [if_neg hc1]
    by_cases hc2 : shelfLife < s2 / max 0.1 (totalDemand / daysAhead)
    · rw [if_pos hc2]
      have hexp2 : 0 ≤ (s2 / max 0.1 (totalDemand / daysAhead) - shelfLife) / shelfLife :=
        div_nonneg (by linarith) (le_of_lt hs)
      apply le_min
      · nlinarith
      · nlinarith
    · rw [if_neg hc2]
      nlinarith

/-- Witness for C7: total demand 10 over 5 days, shelf life 2, candidate
sizes 12 and 15. -/
theorem wasteRisk_monotone_witness :
    calculateWasteRisk 12 10 2 5 ≤ calculateWasteRisk 15 10 2 5 :=
  wasteRisk_monotone 10 2 5 12 15 (by norm_num) (by norm_num) (by norm_num)
    (by norm_num) (by norm_num)

/-- The Scenario A demand: 3-day total demand 8, mid confidence. -/
noncomputable def scenarioA_demand : MultiDayForecast :=
  { totalDemand := some 8, dailyForecasts := [], daysAhead := 3,
    confidenceScore := some 0.5 }

/-- Scenario A item with the optimizer's default shelf life (3 days). -/
noncomputable def scenarioA_config3 : ItemConfig :=
  { itemNumber := "A", itemDescription := "item A", productivity := 10,
    shelfLife := 3, minBatchSize := 15, maxDaysAhead := 3,
    defaultGrowthRate := 0, isActive := true }

/-- Scenario A item with a 7-day shelf life, long enough to consume the
minimum batch before expiry. -/
noncomputable def scenarioA_config7 : ItemConfig :=
  { itemNumber := "A", itemDescription := "item A", productivity := 10,
    shelfLife := 7, minBatchSize := 15, maxDaysAhead := 3,
    defaultGrowthRate := 0, isActive := true }

/-- C6 (counterexample).  Scenario A (`minBatchSize = 15`, `totalDemand = 8`,
`currentStock = 0`) does not always produce 15: with shelf life 3 (the
optimizer's own default) the min-batch option's waste risk (217/240) is
penalized so heavily that its score floors at 0 and the exact-net-demand
option wins, so `produceToday = 8`, not 15. -/
theorem scenarioA_shelfLife3_produces_exact_not_min :
    (optimizeBatchSize scenarioA_demand 0 scenarioA_config3).produceToday = 8 ∧
    (optimizeBatchSize scenarioA_demand 0 scenarioA_config3).produceToday ≠ 15 := by
  have hsqrt : Real.sqrt (16:ℝ) = 4 := by
    rw [show ((16:ℝ)) = 4^2 by norm_num]
    exact Real.sqrt_sq (by norm_num)
  have h8 : (optimizeBatchSize scenarioA_demand 0 scenarioA_config3).produceToday = 8 := by
    norm_num [optimizeBatchSize, scenarioA_demand, scenarioA_config3, jsOrOpt, jsOr,
      generateBatchOptions, createBatchOption, calculateWasteRisk,
      calculateShelfLifeConstrainedMax, calculateEconomicBatchQuantity,
      calculateBatchCost, scoreBatchOption, jsGtP, jsGeP,
      jsAddR, jsSubR, jsMulR, jsDivR, jsMaxR, jsMinR, hsqrt, jsRound,
      max_def, min_def]
  exact ⟨h8, by rw [h8]; norm_num⟩

/-- C6 (amended).  Scenario A produces the minimum batch (15) with a
`Min batch (15) covers 3-day demand` reasoning once the shelf life is long
enough to consume the minimum batch before expiry (here 7 days; consumption
needs 45/8 = 5.625 days at the 3-day demand rate). -/
theorem scenarioA_long_shelf_life_min_batch :
    (optimizeBatchSize scenarioA_demand 0 scenarioA_config7).produceToday = 15 ∧
    (optimizeBatchSize scenarioA_demand 0 scenarioA_config7).reasoning
      = .minBatchCovers 15 3 ∧
    (optimizeBatchSize scenarioA_demand 0 scenarioA_config7).selectedOption.reasoning
      = .minBatchCovers 15 3 := by
  have hsqrt : Real.sqrt (16:ℝ) = 4 := by
    rw [show ((16:ℝ)) = 4^2 by norm_num]
    exact Real.sqrt_sq (by norm_num)
  have hceil : (⌈(32/3 : ℝ)⌉ : ℤ) = 11 := by rw [Int.ceil_eq_iff]; norm_num
  refine ⟨?_, ?_, ?_⟩ <;>
  norm_num [optimizeBatchSize, scenarioA_demand, scenarioA_config7, jsOrOpt, jsOr,
    generateBatchOptions, createBatchOption, calculateWasteRisk,
    calculateShelfLifeConstrainedMax, calculateEconomicBatchQuantity,
    calculateBatchCost, scoreBatchOption, jsGtP, jsGeP,
    jsAddR, jsSubR, jsMulR, jsDivR, jsMaxR, jsMinR, hsqrt, hceil, jsRound,
    max_def, min_def]

open Classical in
lemma bestOption_pick_mem (best0 : BatchOption) (rest : List BatchOption) :
    rest.foldl
        (fun best current => if jsGtP current.score best.score then current else best)
        best0 ∈ best0 :: rest := by
  induction rest generalizing best0 with
  | nil => simp [List.foldl]
  | cons c t ih =>
    simp only [List.foldl]
    rcases List.mem_cons.mp (ih (if jsGtP c.score best0.score then c else best0)) with h | h
    · rw [h]
      by_cases hgt : jsGtP c.score best0.score
      · rw [if_pos hgt]; exact List.mem_cons_of_mem _ (List.mem_cons_self _ _)
      · rw [if_neg hgt]; exact List.mem_cons_self _ _
    · exact List.mem_cons_of_mem _ (List.mem_cons_of_mem _ h)

/-- The exact-net-demand candidate (size `⌈netDemand⌉ ≥ 1`) is always in the
generated option list when the net demand is positive. -/
lemma exact_candidate_mem (netDemand totalDemand : ℝ) (config : ItemConfig)
    (md : MultiDayForecast) (h : 0 < netDemand) :
    ∃ o ∈ generateBatchOptions netDemand totalDemand config md,
      o.size = ⌈netDemand⌉ := by
  have hsize : (createBatchOption ((⌈netDemand⌉ : ℤ) : ℝ) 1.0
      (calculateWasteRisk ((⌈netDemand⌉ : ℤ) : ℝ) totalDemand (jsOr config.shelfLife 3)
        (jsOr ((md.daysAhead : ℕ) : ℝ) 3))
      (.exactNetDemand ⌈netDemand⌉ (jsOr ((md.daysAhead : ℕ) : ℝ) 3))).size
      = ⌈netDemand⌉ := by
    simp [createBatchOption]
  refine ⟨_, ?_, hsize⟩
  apply List.mem_filter.mpr
  refine ⟨?_, ?_⟩
  · rw [if_pos h]
    split_ifs <;> simp [List.mem_append]
  · rw [decide_eq_true_eq, hsize]
    exact Int.ceil_pos.mpr h

/-- Every generated option has positive (integral) size: the list is a
`filter (0 < size)`. -/
lemma generateBatchOptions_size_pos {o : BatchOption} {netDemand totalDemand : ℝ}
    {config : ItemConfig} {md : MultiDayForecast}
    (ho : o ∈ generateBatchOptions netDemand totalDemand config md) :
    0 < o.size := by
  simp only [generateBatchOptions] at ho
  have h := (List.mem_filter.mp ho).2
  rwa [decide_eq_true_eq] at h

open Classical in
/-- C10.  When the (non-NaN) total demand strictly exceeds the current stock,
the candidate list is non-empty (the exact-net-demand option always survives
the positive-size filter), the best-option `reduce` never runs on an empty
list, and the returned `produceToday` is a positive integer. -/
theorem positiveNetDemand_positive_production (multiDayDemand : MultiDayForecast)
    (currentStock : ℝ) (config : ItemConfig) (T : ℝ)
    (hT : multiDayDemand.totalDemand = some T) (hpos : currentStock < T) :
    generateBatchOptions (max 0 (jsOrOpt multiDayDemand.totalDemand 0 - currentStock))
        (jsOrOpt multiDayDemand.totalDemand 0) config multiDayDemand ≠ [] ∧
    ∃ n : ℤ, 0 < n ∧
      (optimizeBatchSize multiDayDemand currentStock config).produceToday = (n : ℝ) := by
  have htot : jsOrOpt multiDayDemand.totalDemand 0 = T := by
    rw [hT]; exact jsOrOpt_some_zero T
  have hnet : max 0 (T - currentStock) = T - currentStock := max_eq_right (by linarith)
  have hnetpos : 0 < max 0 (T - currentStock) := by rw [hnet]; linarith
  obtain ⟨o0, ho0, -⟩ :=
    exact_candidate_mem (max 0 (T - currentStock)) T config multiDayDemand hnetpos
  constructor
  · rw [htot]
    intro hnil
    rw [hnil] at ho0
    exact absurd ho0 (List.not_mem_nil o0)
  · obtain ⟨a, l, hl⟩ : ∃ a l,
        generateBatchOptions (max 0 (T - currentStock)) T config multiDayDemand = a :: l := by
      cases hcase : generateBatchOptions (max 0 (T - currentStock)) T config multiDayDemand with
      | nil => rw [hcase] at ho0; exact absurd ho0 (List.not_mem_nil o0)
      | cons a l => exact ⟨a, l, rfl⟩
    simp only [optimizeBatchSize, htot, hl, List.map_cons]
    rw [if_neg (not_le.mpr hnetpos)]
    have hmem := bestOption_pick_mem
      ({ a with score := scoreBatchOption a multiDayDemand config currentStock })
      (l.map fun option =>
        { option with score := scoreBatchOption option multiDayDemand config currentStock })
    rcases List.mem_cons.mp hmem with hcase | hcase
    · refine ⟨a.size, generateBatchOptions_size_pos (hl ▸ List.mem_cons_self a l), ?_⟩
      rw [hcase]
    · obtain ⟨o, ho, heq⟩ := List.mem_map.mp hcase
      refine ⟨o.size, generateBatchOptions_size_pos (hl ▸ List.mem_cons_of_mem a ho), ?_⟩
      rw [← heq]

/-- A 3-day demand of 5 against stock 2, for the C10 witness. -/
noncomputable def c10_demand : MultiDayForecast :=
  { totalDemand := some 5, dailyForecasts := [], daysAhead := 3,
    confidenceScore := some 1 }

/-- Witness for C10: total demand 5, stock 2. -/
theorem positiveNetDemand_positive_production_witness :
    generateBatchOptions (max 0 (jsOrOpt c10_demand.totalDemand 0 - 2))
        (jsOrOpt c10_demand.totalDemand 0) scenarioB_config c10_demand ≠ [] ∧
    ∃ n : ℤ, 0 < n ∧
      (optimizeBatchSize c10_demand 2 scenarioB_config).produceToday = (n : ℝ) :=
  positiveNetDemand_positive_production c10_demand 2 scenarioB_config 5 rfl (by norm_num)

/-! ## Demand Forecaster (src/lib/forecasting.ts) -/

/-- JS `Math.abs` on possibly-NaN reals. -/
noncomputable def jsAbsR : Option ℝ → Option ℝ
  | some a => some |a|
  | none => none

/-- JS `<` on possibly-NaN reals, as a proposition; NaN comparisons are
false. -/
def jsLtP : Option ℝ → Option ℝ → Prop
  | some a, some b => a < b
  | _, _ => False

/-- The `ProcessedSalesData` record (the fields the computation core reads;
the fiscal-date and variance fields produced by ingestion are never read by
the forecasting pipeline and are omitted). -/
structure ProcessedSalesData where
  itemNumber : String
  itemDescription : String
  calendarDate : ℤ
  currentYearUnits : ℝ
  lastYearUnits : ℝ
  twoYearsAgoUnits : Option ℝ
  dataSource : String

/-- The `ForecastResult` record. -/
structure ForecastResult where
  forecast : Option ℝ
  baseDemand : ℝ
  adjustedDemand : Option ℝ
  confidence : ℝ
  factors : ForecastFactors
  explanation : String
  dataPoints : ℕ
  targetDate : ℤ

/-- `DemandForecaster.getDefaultSeasonalFactors` with the `|| 1.0` lookup
default (month is 1-based: `date.getMonth() + 1`). -/
noncomputable def getSeasonalFactorOfMonth (month : ℤ) : ℝ :=
  if month = 1 then 0.8 else if month = 2 then 0.9 else if month = 3 then 1.0
  else if month = 4 then 1.1 else if month = 5 then 1.2 else if month = 6 then 1.1
  else if month = 7 then 1.3 else if month = 8 then 1.2 else if month = 9 then 1.0
  else if month = 10 then 1.1 else if month = 11 then 1.4 else if month = 12 then 1.3
  else 1.0

/-- `DemandForecaster.getSeasonalFactor`. -/
noncomputable def getSeasonalFactor (date : ℤ) : ℝ :=
  getSeasonalFactorOfMonth (monthOf date)

/-- `DemandForecaster.getDefaultDayOfWeekFactors` with the `|| 1.0` lookup
default (0 = Sunday). -/
noncomputable def getDayOfWeekFactorOfDay (dayOfWeek : ℤ) : ℝ :=
  if dayOfWeek = 0 then 0.7 else if dayOfWeek = 1 then 0.9
  else if dayOfWeek = 2 then 1.0 else if dayOfWeek = 3 then 1.1
  else if dayOfWeek = 4 then 1.2 else if dayOfWeek = 5 then 1.4
  else if dayOfWeek = 6 then 1.1 else 1.0

/-- `DemandForecaster.getDayOfWeekFactor`. -/
noncomputable def getDayOfWeekFactor (date : ℤ) : ℝ :=
  getDayOfWeekFactorOfDay (weekdayOf date)

/-- `DemandForecaster.getSameDayOfWeekData`: same weekday as the target,
most recent 8 occurrences (descending by date; JS `sort` is stable). -/
def getSameDayOfWeekData (itemData : List ProcessedSalesData) (targetDate : ℤ) :
    List ProcessedSalesData :=
  let targetDayOfWeek := weekdayOf targetDate
  (jsSortBy (fun a b => decide (b.calendarDate ≤ a.calendarDate))
    (itemData.filter fun d => weekdayOf d.calendarDate == targetDayOfWeek)).take 8

/-- `DemandForecaster.getRecentData`: records within `days` days before the
wall clock (`new Date()`, modelled by `today`), descending by date. -/
def getRecentData (itemData : List ProcessedSalesData) (days : ℤ) (today : ℤ) :
    List ProcessedSalesData :=
  let cutoffDate := today - days
  jsSortBy (fun a b => decide (b.calendarDate ≤ a.calendarDate))
    (itemData.filter fun d => decide (cutoffDate ≤ d.calendarDate))

/-- `DemandForecaster.getSamePeriodLastYear`: same month one calendar year
earlier, within ±1 of the `Math.floor(dayOfMonth / 7)` week index.  (JS
months are 0-based on both sides of the comparison; the shared 1-based
`monthOf` is equivalent.) -/
def getSamePeriodLastYear (itemData : List ProcessedSalesData) (targetDate : ℤ) :
    List ProcessedSalesData :=
  let lastYear := yearOf targetDate - 1
  let targetMonth := monthOf targetDate
  let targetWeek := dayOf targetDate / 7
  itemData.filter fun d =>
    decide (yearOf d.calendarDate = lastYear ∧ monthOf d.calendarDate = targetMonth ∧
      |dayOf d.calendarDate / 7 - targetWeek| ≤ 1)

/-- `DemandForecaster.calculateWeightedAverage`: recency weights `0.8^rank`
over the list order. -/
noncomputable def calculateWeightedAverage (data : List ProcessedSalesData) : ℝ :=
  if data.length = 0 then 0
  else
    let sums := data.enum.foldl
      (fun acc p =>
        (acc.1 + p.2.currentYearUnits * (0.8:ℝ) ^ p.1, acc.2 + (0.8:ℝ) ^ p.1))
      ((0:ℝ), (0:ℝ))
    if 0 < sums.2 then sums.1 / sums.2 else 0

/-- `DemandForecaster.calculateBaseDemand`: same weekday, else last 30 days
(window measured from the wall clock `today`), else same period last year,
else the flat average. -/
noncomputable def calculateBaseDemand (itemData : List ProcessedSalesData)
    (targetDate today : ℤ) : ℝ :=
  if itemData.length = 0 then 0
  else
    let sameDayOfWeek := getSameDayOfWeekData itemData targetDate
    if 0 < sameDayOfWeek.length then calculateWeightedAverage sameDayOfWeek
    else
      let recentData := getRecentData itemData 30 today
      if 0 < recentData.length then calculateWeightedAverage recentData
      else
        let lastYearData := getSamePeriodLastYear itemData targetDate
        if 0 < lastYearData.length then calculateWeightedAverage lastYearData
        else (itemData.foldl (fun sum d => sum + d.currentYearUnits) 0) / itemData.length

/-- `DemandForecaster.calculateTrendFactor`: linear-regression slope over the
last 28 days of data (at least 4 points), normalized by the mean and clamped
to `[0.5, 2.0]`.  The regression denominator is positive for `n ≥ 2`
distinct indices, so the division is never by zero on the guarded path. -/
noncomputable def calculateTrendFactor (itemData : List ProcessedSalesData)
    (_targetDate today : ℤ) : ℝ :=
  if itemData.length < 4 then 1.0
  else
    let recentData := getRecentData itemData 28 today
    if recentData.length < 4 then 1.0
    else
      let sorted := jsSortBy (fun a b => decide (a.calendarDate ≤ b.calendarDate)) recentData
      let n : ℝ := sorted.length
      let sums := sorted.enum.foldl
        (fun acc p =>
          (acc.1 + (p.1 : ℝ),
           (acc.2.1 + p.2.currentYearUnits,
            (acc.2.2.1 + (p.1 : ℝ) * p.2.currentYearUnits,
             acc.2.2.2 + (p.1 : ℝ) * (p.1 : ℝ)))))
        ((0:ℝ), ((0:ℝ), ((0:ℝ), (0:ℝ))))
      let sumX := sums.1
      let sumY := sums.2.1
      let sumXY := sums.2.2.1
      let sumX2 := sums.2.2.2
      let slope := (n * sumXY - sumX * sumY) / (n * sumX2 - sumX * sumX)
      let avgY := sumY / n
      if 0 < avgY then max 0.5 (min 2.0 (1 + slope / avgY)) else 1.0

/-- `DemandForecaster.calculateForecastFactors`; the engine member was
constructed from the raw holiday list (`new HolidayEngine(holidays)`), hence
`initHolidays`. -/
noncomputable def calculateForecastFactors (holidays : List Holiday)
    (targetDate : ℤ) (itemData : List ProcessedSalesData) (today : ℤ) :
    ForecastFactors :=
  { seasonal := getSeasonalFactor targetDate
    dayOfWeek := getDayOfWeekFactor targetDate
    holiday := (getHolidayImpactFactor (initHolidays holidays) targetDate none).factor
    trend := calculateTrendFactor itemData targetDate today
    growth := 0 }

/-- `DemandForecaster.calculateDateFactor`:
`seasonal * dayOfWeek * holiday * trend`. -/
noncomputable def calculateDateFactor (factors : ForecastFactors) : Option ℝ :=
  jsMulR (jsMulR (jsMulR (some factors.seasonal) (some factors.dayOfWeek))
    factors.holiday) (some factors.trend)

/-- `DemandForecaster.calculateFactorVariation`: mean absolute deviation of
the four factors from 1.0 (NaN when the holiday factor is NaN). -/
noncomputable def calculateFactorVariation (factors : ForecastFactors) : Option ℝ :=
  let deviations : List (Option ℝ) :=
    [some |factors.seasonal - 1.0|, some |factors.dayOfWeek - 1.0|,
     jsAbsR (jsSubR factors.holiday (some 1.0)), some |factors.trend - 1.0|]
  jsDivR (deviations.foldl jsAddR (some 0)) (some 4)

open Classical in
/-- `DemandForecaster.calculateConfidence`: base 0.5 plus data-volume,
recency (14-day window from the wall clock), same-weekday and
factor-stability bonuses, capped at 1.0. -/
noncomputable def calculateConfidence (itemData : List ProcessedSalesData)
    (targetDate today : ℤ) (factors : ForecastFactors) : ℝ :=
  let confidence : ℝ := 0.5
  let dataPoints := itemData.length
  let confidence := if 30 ≤ dataPoints then confidence + 0.3
    else if 10 ≤ dataPoints then confidence + 0.2
    else if 5 ≤ dataPoints then confidence + 0.1
    else confidence
  let recentData := getRecentData itemData 14 today
  let confidence := if 5 ≤ recentData.length then confidence + 0.1 else confidence
  let sameDayData := getSameDayOfWeekData itemData targetDate
  let confidence := if 3 ≤ sameDayData.length then confidence + 0.1 else confidence
  let confidence :=
    if jsLtP (calculateFactorVariation factors) (some 0.2) then confidence + 0.1
    else confidence
  min 1.0 confidence

open Classical in
/-- `DemandForecaster.generateForecastExplanation`: name the factors that
deviate from 1.0 by more than 5% (NaN holiday deviations compare false). -/
noncomputable def generateForecastExplanation (_baseDemand : ℝ)
    (_adjustedDemand : Option ℝ) (factors : ForecastFactors) : String :=
  let explanations : List String := []
  let explanations := if 0.05 < |factors.seasonal - 1.0| then
      explanations ++ [(if 1.0 < factors.seasonal then "increased" else "decreased")
        ++ " for season"]
    else explanations
  let explanations := if 0.05 < |factors.dayOfWeek - 1.0| then
      explanations ++ [(if 1.0 < factors.dayOfWeek then "higher" else "lower")
        ++ " for day of week"]
    else explanations
  let explanations := if jsGtP (jsAbsR (jsSubR factors.holiday (some 1.0))) (some 0.05) then
      explanations ++ [(if jsGtP factors.holiday (some 1.0) then "increased" else "decreased")
        ++ " for holiday proximity"]
    else explanations
  let explanations := if 0.05 < |factors.trend - 1.0| then
      explanations ++ [(if 1.0 < factors.trend then "upward" else "downward") ++ " trend"]
    else explanations
  if explanations.length = 0 then "Normal demand expected"
  else "Adjusted for: " ++ String.intercalate ", " explanations

/-- `DemandForecaster.createEmptyForecast`: the zero-demand, zero-confidence
result used when the item has no records (and on internal errors). -/
noncomputable def createEmptyForecast (targetDate : ℤ) : ForecastResult :=
  { forecast := some 0
    baseDemand := 0
    adjustedDemand := some 0
    confidence := 0
    factors := { seasonal := 1.0, dayOfWeek := 1.0, holiday := some 1.0,
                 trend := 1.0, growth := 0 }
    explanation := "No historical data available"
    dataPoints := 0
    targetDate := targetDate }

/-- `DemandForecaster.forecastDemand`.  `today` models the wall clock read
by the recency windows. -/
noncomputable def forecastDemand (holidays : List Holiday)
    (historicalData : List ProcessedSalesData) (targetDate : ℤ)
    (growthRate : ℝ) (itemNumber : String) (today : ℤ) : ForecastResult :=
  let itemData := historicalData.filter fun d => d.itemNumber == itemNumber
  if itemData.length = 0 then createEmptyForecast targetDate
  else
    let baseDemand := calculateBaseDemand itemData targetDate today
    let factors := calculateForecastFactors holidays targetDate itemData today
    let adjustedDemand := factors.holiday.map fun h =>
      baseDemand * (1 + growthRate) * factors.seasonal * factors.dayOfWeek * h * factors.trend
    let confidence := calculateConfidence itemData targetDate today factors
    { forecast := jsMaxR (some 0) adjustedDemand
      baseDemand := baseDemand
      adjustedDemand := adjustedDemand
      confidence := confidence
      factors := factors
      explanation := generateForecastExplanation baseDemand adjustedDemand factors
      dataPoints := itemData.length
      targetDate := targetDate }

/-- JS `Math.round` lifted to possibly-NaN values (`Math.round(NaN) = NaN`). -/
noncomputable def jsRoundOpt (x : Option ℝ) : Option ℝ :=
  x.map fun v => ((jsRound v : ℤ) : ℝ)

/-- `DemandForecaster.forecastMultiDay`: one forecast per consecutive day,
total demand rounded once at the end, confidence averaged (NaN when
`days = 0`, the JS `0/0`). -/
noncomputable def forecastMultiDay (holidays : List Holiday)
    (historicalData : List ProcessedSalesData) (startDate : ℤ) (days : ℕ)
    (growthRate : ℝ) (itemNumber : String) (today : ℤ) : MultiDayForecast :=
  let results := (List.range days).map fun i =>
    forecastDemand holidays historicalData (startDate + (i : ℤ)) growthRate itemNumber today
  let dailyForecasts := results.map fun f =>
    { date := f.targetDate
      baseDemand := f.baseDemand
      adjustedDemand := f.adjustedDemand
      dateFactor := calculateDateFactor f.factors
      confidence := f.confidence
      factors := f.factors : DailyForecast }
  let totalDemand := results.foldl (fun acc f => jsAddR acc f.adjustedDemand) (some 0)
  let totalConfidence := results.foldl (fun acc f => acc + f.confidence) (0:ℝ)
  { totalDemand := jsRoundOpt totalDemand
    dailyForecasts := dailyForecasts
    daysAhead := days
    confidenceScore := if days = 0 then none else some (totalConfidence / (days : ℝ)) }

/-! ## Plan Generator (`PlanGenerator`) -/

/-- The global settings fields the generator reads. -/
structure GlobalSettings where
  fiscalYearStartMonth : ℤ
  fiscalYearStartDay : ℤ
  defaultMaxDaysAhead : ℕ

/-- The `DateRange` record (`endDate` is the source's `end` field). -/
structure DateRange where
  start : ℤ
  endDate : ℤ

/-- The `ProductionPlanItem` record. -/
structure ProductionPlanItem where
  itemNumber : String
  itemDescription : String
  oldStockStart : ℝ
  oldStockEnd : ℝ
  stockAge : ℝ
  newStockEnd : ℝ
  isExpired : Bool
  lastYearUnits : ℝ
  twoYearsAgoUnits : ℝ
  dateFactor : Option ℝ
  dateFactorReasons : List String
  seasonalFactor : ℝ
  holidayFactor : Option ℝ
  dayOfWeekFactor : ℝ
  multiDayDemand : MultiDayForecast
  todayNeed : Option ℝ
  batchDecision : BatchDecision
  productivity : ℝ
  shelfLife : ℝ
  growthRate : ℝ
  minBatchSize : ℝ
  maxDaysAhead : ℕ

/-- The `ProductionSummary` record. -/
structure ProductionSummary where
  totalItems : ℕ
  activeItems : ℕ
  totalUnitsToProduce : ℝ
  totalHoursNeeded : ℝ
  itemsWithCarryover : ℕ
  expiredItems : ℕ
  batchEfficiencyScore : ℝ
  estimatedCost : ℝ
  wasteRiskScore : ℝ

/-- The `PlanMetadata` record (`generatedAt` is the wall clock `now`). -/
structure PlanMetadata where
  generatedAt : ℤ
  dataSource : List String
  holidaysConsidered : List Holiday
  planningHorizon : Option ℕ
  fiscalYearStart : ℤ
  version : String
  settings : GlobalSettings

/-- The `ProductionPlan` record. -/
structure ProductionPlan where
  date : ℤ
  items : List ProductionPlanItem
  summary : ProductionSummary
  metadata : PlanMetadata

/-- `PlanGenerator.getAverageUnits`: mean of the values present for the
field (`typeof value === 'number' && !isNaN(value)` is the `isSome`
filter). -/
noncomputable def getAverageUnits (itemData : List ProcessedSalesData)
    (field : ProcessedSalesData → Option ℝ) : ℝ :=
  if itemData.length = 0 then 0
  else
    let values := itemData.filterMap field
    if values.length = 0 then 0
    else values.foldl (· + ·) 0 / (values.length : ℝ)

/-- `PlanGenerator.createEmptyPlanItem`: the well-formed zero-production
item used for items with no historical data. -/
noncomputable def createEmptyPlanItem (itemNumber : String) (config : ItemConfig)
    (_planDate : ℤ) : ProductionPlanItem :=
  { itemNumber := itemNumber
    itemDescription := config.itemDescription
    oldStockStart := 0
    oldStockEnd := 0
    stockAge := 0
    newStockEnd := 0
    isExpired := false
    lastYearUnits := 0
    twoYearsAgoUnits := 0
    dateFactor := some 1.0
    dateFactorReasons := ["No historical data available"]
    seasonalFactor := 1.0
    holidayFactor := some 1.0
    dayOfWeekFactor := 1.0
    multiDayDemand := { totalDemand := some 0, dailyForecasts := [],
                        daysAhead := config.maxDaysAhead, confidenceScore := some 0 }
    todayNeed := some 0
    batchDecision := { recommendedBatchSize := 0, produceToday := 0, hoursNeeded := 0,
                       reasoning := .noHistoricalData, options := [],
                       selectedOption := { size := 0, efficiency := 0, wasteRisk := 0,
                                           cost := 0, reasoning := .noData, score := some 0 },
                       efficiencyScore := 0, wasteRiskScore := 0 }
    productivity := config.productivity
    shelfLife := config.shelfLife
    growthRate := config.defaultGrowthRate
    minBatchSize := config.minBatchSize
    maxDaysAhead := config.maxDaysAhead }

open Classical in
/-- `PlanGenerator.generatePlanItem`: the empty-data branch returns the
empty plan item; otherwise forecast multi-day demand and today's point
forecast, query the holiday engine for the date-factor explanation, optimize
the batch (current stock is the hard-coded 0), and assemble the item. -/
noncomputable def generatePlanItem (holidays : List Holiday) (itemNumber : String)
    (itemData : List ProcessedSalesData) (config : ItemConfig) (planDate : ℤ)
    (today : ℤ) : ProductionPlanItem :=
  match itemData with
  | [] => createEmptyPlanItem itemNumber config planDate
  | d0 :: _ =>
    let itemDescription :=
      if d0.itemDescription = "" then config.itemDescription else d0.itemDescription
    let currentStock : ℝ := 0
    let oldStockStart : ℝ := 0
    let stockAge : ℝ := 0
    let lastYearUnits := getAverageUnits itemData fun d => some d.lastYearUnits
    let twoYearsAgoUnits := getAverageUnits itemData fun d => d.twoYearsAgoUnits
    let multiDayDemand := forecastMultiDay holidays itemData planDate
      config.maxDaysAhead config.defaultGrowthRate itemNumber today
    let todayForecast := forecastDemand holidays itemData planDate
      config.defaultGrowthRate itemNumber today
    let holidayImpact := getHolidayImpactFactor (initHolidays holidays) planDate none
    let batchDecision := optimizeBatchSize multiDayDemand currentStock config
    let isExpired : Bool := if config.shelfLife < stockAge then true else false
    let oldStockEnd := if isExpired then (0:ℝ) else max 0 (oldStockStart - min 0 oldStockStart)
    let newStockEnd := max 0 (batchDecision.produceToday - max 0 (0 - oldStockStart))
    { itemNumber := itemNumber
      itemDescription := itemDescription
      oldStockStart := oldStockStart
      oldStockEnd := oldStockEnd
      stockAge := stockAge
      newStockEnd := newStockEnd
      isExpired := isExpired
      lastYearUnits := lastYearUnits
      twoYearsAgoUnits := twoYearsAgoUnits
      dateFactor := jsMulR (jsMulR todayForecast.factors.holiday
        (some todayForecast.factors.seasonal)) (some todayForecast.factors.dayOfWeek)
      dateFactorReasons := [holidayImpact.explanation]
      seasonalFactor := todayForecast.factors.seasonal
      holidayFactor := todayForecast.factors.holiday
      dayOfWeekFactor := todayForecast.factors.dayOfWeek
      multiDayDemand := multiDayDemand
      todayNeed := todayForecast.forecast
      batchDecision := batchDecision
      productivity := config.productivity
      shelfLife := config.shelfLife
      growthRate := config.defaultGrowthRate
      minBatchSize := config.minBatchSize
      maxDaysAhead := config.maxDaysAhead }

/-- `PlanGenerator.filterData`: date range and selected-item filter. -/
def filterData (data : List ProcessedSalesData) (dateRange : DateRange)
    (selectedItems : List String) : List ProcessedSalesData :=
  data.filter fun record =>
    selectedItems.contains record.itemNumber &&
    decide (dateRange.start ≤ record.calendarDate) &&
    decide (record.calendarDate ≤ dateRange.endDate)

open Classical in
/-- `PlanGenerator.generateSummary`. -/
noncomputable def generateSummary (items : List ProductionPlanItem) : ProductionSummary :=
  let activeItems := items.filter fun item => decide (0 < item.batchDecision.produceToday)
  let totalUnits := items.foldl (fun sum item => sum + item.batchDecision.produceToday) 0
  let totalHours := items.foldl (fun sum item => sum + item.batchDecision.hoursNeeded) 0
  let itemsWithCarryover := (items.filter fun item => decide (0 < item.oldStockStart)).length
  let expiredItems := (items.filter fun item => item.isExpired).length
  let efficiencyScores := (items.filter fun item =>
    decide (0 < item.batchDecision.efficiencyScore)).map fun item =>
      item.batchDecision.efficiencyScore
  let batchEfficiencyScore := if 0 < efficiencyScores.length then
      efficiencyScores.foldl (· + ·) 0 / (efficiencyScores.length : ℝ)
    else 0
  let estimatedCost := totalUnits * 2.5
  let wasteRiskScores := items.map fun item => item.batchDecision.wasteRiskScore
  let wasteRiskScore := if 0 < wasteRiskScores.length then
      wasteRiskScores.foldl (· + ·) 0 / (wasteRiskScores.length : ℝ)
    else 0
  { totalItems := items.length
    activeItems := activeItems.length
    totalUnitsToProduce := totalUnits
    totalHoursNeeded := totalHours
    itemsWithCarryover := itemsWithCarryover
    expiredItems := expiredItems
    batchEfficiencyScore := batchEfficiencyScore
    estimatedCost := estimatedCost
    wasteRiskScore := wasteRiskScore }

/-- `PlanGenerator.generateMetadata`.  `generatedAt` is the wall clock;
`planningHorizon` is `Math.max` over a per-selected-item constant, which on
an empty selection is JS `-Infinity`, modelled as `none`;
`getFiscalYearStart(year + 1)` anchors `(year + 1) - 1 = year`. -/
noncomputable def generateMetadata (data : List ProcessedSalesData)
    (_dateRange : DateRange) (selectedItems : List String)
    (holidays : List Holiday) (globalSettings : GlobalSettings) (now : ℤ) :
    PlanMetadata :=
  { generatedAt := now
    dataSource := (data.map fun d => d.dataSource).eraseDups
    holidaysConsidered := holidays.filter fun h => h.isActive
    planningHorizon := if selectedItems.isEmpty then none
      else some globalSettings.defaultMaxDaysAhead
    fiscalYearStart := daysFromCivil (yearOf now) globalSettings.fiscalYearStartMonth
      globalSettings.fiscalYearStartDay
    version := "1.0.0"
    settings := globalSettings }

/-- `PlanGenerator.generatePlan`: filter the records, process each selected
item with an active config in selection order (`groupDataByItem` followed by
`groups.get(itemNumber) || []` is the per-item in-order filtration of the
filtered data; `!itemConfig?.isActive` skips missing or inactive configs),
then aggregate the summary and metadata.  `now` models the wall clock, which
reaches both the forecaster's recency windows and the metadata timestamp. -/
noncomputable def generatePlan (holidays : List Holiday)
    (data : List ProcessedSalesData) (dateRange : DateRange)
    (selectedItems : List String) (itemConfigs : String → Option ItemConfig)
    (globalSettings : GlobalSettings) (now : ℤ) : ProductionPlan :=
  let filteredData := filterData data dateRange selectedItems
  let planItems := selectedItems.filterMap fun itemNumber =>
    let itemData := filteredData.filter fun r => r.itemNumber == itemNumber
    match itemConfigs itemNumber with
    | some config =>
      if config.isActive then
        some (generatePlanItem holidays itemNumber itemData config dateRange.start now)
      else none
    | none => none
  { date := dateRange.start
    items := planItems
    summary := generateSummary planItems
    metadata := generateMetadata data dateRange selectedItems holidays globalSettings now }

/-! ## Forecaster / plan-generator theorems (claims C9, C8) -/

/-- C9.  A selected item with an active config and no historical sales
records gets the empty forecast (`forecast = 0`, `confidence = 0`), and the
plan still contains the well-formed empty plan item for it (zero production,
no-historical-data reasoning) rather than omitting the item. -/
theorem noData_item_zero_forecast_and_in_plan (holidays : List Holiday)
    (data : List ProcessedSalesData) (dateRange : DateRange)
    (selectedItems : List String) (itemConfigs : String → Option ItemConfig)
    (globalSettings : GlobalSettings) (now : ℤ) (itemNumber : String)
    (config : ItemConfig)
    (hmem : itemNumber ∈ selectedItems)
    (hcfg : itemConfigs itemNumber = some config)
    (hact : config.isActive = true)
    (hnodata : ∀ r ∈ data, r.itemNumber ≠ itemNumber) :
    (forecastDemand holidays data dateRange.start config.defaultGrowthRate
        itemNumber now).forecast = some 0 ∧
    (forecastDemand holidays data dateRange.start config.defaultGrowthRate
        itemNumber now).confidence = 0 ∧
    createEmptyPlanItem itemNumber config dateRange.start
      ∈ (generatePlan holidays data dateRange selectedItems itemConfigs
          globalSettings now).items ∧
    (createEmptyPlanItem itemNumber config dateRange.start).batchDecision.produceToday
      = 0 ∧
    (createEmptyPlanItem itemNumber config dateRange.start).batchDecision.reasoning
      = .noHistoricalData := by
  have hfil : data.filter (fun d => d.itemNumber == itemNumber) = [] := by
    rw [List.filter_eq_nil_iff]
    intro r hr
    simpa using hnodata r hr
  have hfil2 : (filterData data dateRange selectedItems).filter
      (fun r => r.itemNumber == itemNumber) = [] := by
    rw [List.filter_eq_nil_iff]
    intro r hr
    have hrd : r ∈ data := by
      simp only [filterData] at hr
      exact List.mem_of_mem_filter hr
    simpa using hnodata r hrd
  refine ⟨?_, ?_, ?_, rfl, rfl⟩
  · simp [forecastDemand, hfil, createEmptyForecast]
  · simp [forecastDemand, hfil, createEmptyForecast]
  · simp only [generatePlan]
    apply List.mem_filterMap.mpr
    refine ⟨itemNumber, hmem, ?_⟩
    rw [hcfg, hfil2]
    simp [hact, generatePlanItem]


/-- `calculateBaseDemand` depends on the wall clock only through the 30-day
recency window. -/
theorem calculateBaseDemand_congr (d : List ProcessedSalesData) (t t1 t2 : ℤ)
    (h30 : getRecentData d 30 t1 = getRecentData d 30 t2) :
    calculateBaseDemand d t t1 = calculateBaseDemand d t t2 := by
  simp only [calculateBaseDemand, h30]

/-- `calculateTrendFactor` depends on the wall clock only through the 28-day
recency window. -/
theorem calculateTrendFactor_congr (d : List ProcessedSalesData) (t t1 t2 : ℤ)
    (h28 : getRecentData d 28 t1 = getRecentData d 28 t2) :
    calculateTrendFactor d t t1 = calculateTrendFactor d t t2 := by
  simp only [calculateTrendFactor, h28]

/-- `calculateForecastFactors` depends on the wall clock only through the
trend factor's 28-day window. -/
theorem calculateForecastFactors_congr (holidays : List Holiday) (t : ℤ)
    (d : List ProcessedSalesData) (t1 t2 : ℤ)
    (h28 : getRecentData d 28 t1 = getRecentData d 28 t2) :
    calculateForecastFactors holidays t d t1 = calculateForecastFactors holidays t d t2 := by
  simp only [calculateForecastFactors, calculateTrendFactor_congr d t t1 t2 h28]

/-- `calculateConfidence` depends on the wall clock only through the 14-day
recency window. -/
theorem calculateConfidence_congr (d : List ProcessedSalesData) (t t1 t2 : ℤ)
    (f : ForecastFactors)
    (h14 : getRecentData d 14 t1 = getRecentData d 14 t2) :
    calculateConfidence d t t1 f = calculateConfidence d t t2 f := by
  simp only [calculateConfidence, h14]

/-- C8 (amended).  The forecaster reads the wall clock, but only through its
30-, 28- and 14-day recency windows: two runs of `forecastDemand` on
identical inputs whose wall-clock readings select the same recent-data
windows return identical forecasts.  (The full pipeline threads the same
clock into every per-item forecast, and into the metadata timestamp.) -/
theorem forecast_deterministic_given_clock (holidays : List Holiday)
    (historicalData : List ProcessedSalesData) (targetDate : ℤ) (growthRate : ℝ)
    (itemNumber : String) (today1 today2 : ℤ)
    (h30 : getRecentData (historicalData.filter fun d => d.itemNumber == itemNumber)
        30 today1
      = getRecentData (historicalData.filter fun d => d.itemNumber == itemNumber)
        30 today2)
    (h28 : getRecentData (historicalData.filter fun d => d.itemNumber == itemNumber)
        28 today1
      = getRecentData (historicalData.filter fun d => d.itemNumber == itemNumber)
        28 today2)
    (h14 : getRecentData (historicalData.filter fun d => d.itemNumber == itemNumber)
        14 today1
      = getRecentData (historicalData.filter fun d => d.itemNumber == itemNumber)
        14 today2) :
    forecastDemand holidays historicalData targetDate growthRate itemNumber today1
      = forecastDemand holidays historicalData targetDate growthRate itemNumber today2 := by
  simp only [forecastDemand,
    calculateBaseDemand_congr (historicalData.filter fun d => d.itemNumber == itemNumber)
      targetDate today1 today2 h30,
    calculateForecastFactors_congr holidays targetDate
      (historicalData.filter fun d => d.itemNumber == itemNumber) today1 today2 h28,
    calculateConfidence_congr (historicalData.filter fun d => d.itemNumber == itemNumber)
      targetDate today1 today2 _ h14]

/-- C8 counterexample data: item A sold 100 units on 2025-03-10. -/
def c8_r1 : ProcessedSalesData :=
  { itemNumber := "A", itemDescription := "Item A",
    calendarDate := daysFromCivil 2025 3 10, currentYearUnits := 100,
    lastYearUnits := 90, twoYearsAgoUnits := some 80, dataSource := "test" }

/-- C8 counterexample data: item A also sold 10 units on 2025-02-07. -/
def c8_r2 : ProcessedSalesData :=
  { itemNumber := "A", itemDescription := "Item A",
    calendarDate := daysFromCivil 2025 2 7, currentYearUnits := 10,
    lastYearUnits := 9, twoYearsAgoUnits := some 8, dataSource := "test" }

/-- An active config for item A. -/
def c8_config : ItemConfig :=
  { itemNumber := "A", itemDescription := "Item A", productivity := 10,
    shelfLife := 7, minBatchSize := 0, maxDaysAhead := 1,
    defaultGrowthRate := 0, isActive := true }

/-- The config table (`Record<string, ItemConfig>`) for the C8 run. -/
def c8_configs : String → Option ItemConfig :=
  fun i => if i = "A" then some c8_config else none

/-- Plan range 2025-02-01 … 2025-12-31; the plan date is its start. -/
def c8_range : DateRange :=
  { start := daysFromCivil 2025 2 1, endDate := daysFromCivil 2025 12 31 }

/-- Global settings for the C8 run. -/
def c8_gs : GlobalSettings :=
  { fiscalYearStartMonth := 9, fiscalYearStartDay := 2, defaultMaxDaysAhead := 1 }

lemma c8_filter_eval :
    filterData [c8_r1, c8_r2] c8_range ["A"] = [c8_r1, c8_r2] := rfl

lemma c8_itemdata_eval :
    (filterData [c8_r1, c8_r2] c8_range ["A"]).filter
      (fun r => r.itemNumber == "A") = [c8_r1, c8_r2] := rfl

lemma c8_sameDay_eval :
    getSameDayOfWeekData [c8_r1, c8_r2] (daysFromCivil 2025 2 1) = [] := rfl

lemma c8_recent30_march :
    getRecentData [c8_r1, c8_r2] 30 (daysFromCivil 2025 3 15) = [c8_r1] := rfl

lemma c8_recent30_april :
    getRecentData [c8_r1, c8_r2] 30 (daysFromCivil 2025 4 24) = [] := rfl

lemma c8_lastYear_eval :
    getSamePeriodLastYear [c8_r1, c8_r2] (daysFromCivil 2025 2 1) = [] := rfl

lemma c8_base_march :
    calculateBaseDemand [c8_r1, c8_r2] (daysFromCivil 2025 2 1)
      (daysFromCivil 2025 3 15) = 100 := by
  simp only [calculateBaseDemand, c8_sameDay_eval, c8_recent30_march]
  norm_num [calculateWeightedAverage, List.enum, c8_r1]

lemma c8_base_april :
    calculateBaseDemand [c8_r1, c8_r2] (daysFromCivil 2025 2 1)
      (daysFromCivil 2025 4 24) = 55 := by
  simp only [calculateBaseDemand, c8_sameDay_eval, c8_recent30_april, c8_lastYear_eval]
  norm_num [c8_r1, c8_r2]

lemma c8_trend_any (t : ℤ) :
    calculateTrendFactor [c8_r1, c8_r2] (daysFromCivil 2025 2 1) t = 1.0 := by
  simp [calculateTrendFactor]

lemma c8_holiday_factor :
    (getHolidayImpactFactor (initHolidays [inactiveRule])
      (daysFromCivil 2025 2 1) none).factor = some 1.0 := by
  have haff : findNearbyHolidays (daysFromCivil 2025 2 1)
      (getHolidaysForYear (initHolidays [inactiveRule])
        (jsYearOr none (daysFromCivil 2025 2 1))) = [] := rfl
  simp only [getHolidayImpactFactor, haff, calculateCombinedImpact, List.length_nil]
  norm_num

lemma c8_seasonal : getSeasonalFactor (daysFromCivil 2025 2 1) = 0.9 := by
  have hm : monthOf (daysFromCivil 2025 2 1) = 2 := rfl
  simp [getSeasonalFactor, getSeasonalFactorOfMonth, hm]

lemma c8_dow : getDayOfWeekFactor (daysFromCivil 2025 2 1) = 1.1 := by
  have hw : weekdayOf (daysFromCivil 2025 2 1) = 6 := rfl
  simp [getDayOfWeekFactor, getDayOfWeekFactorOfDay, hw]

lemma c8_forecast_march :
    (forecastDemand [inactiveRule] [c8_r1, c8_r2] (daysFromCivil 2025 2 1)
      0 "A" (daysFromCivil 2025 3 15)).forecast = some 99 := by
  have hAA : ([c8_r1, c8_r2].filter fun d => d.itemNumber == "A")
      = [c8_r1, c8_r2] := rfl
  simp only [forecastDemand, hAA, calculateForecastFactors, c8_base_march,
    c8_trend_any, c8_holiday_factor, c8_seasonal, c8_dow, List.length_cons,
    List.length_nil]
  norm_num [jsMaxR, Option.map]

lemma c8_forecast_april :
    (forecastDemand [inactiveRule] [c8_r1, c8_r2] (daysFromCivil 2025 2 1)
      0 "A" (daysFromCivil 2025 4 24)).forecast = some (1089/20) := by
  have hAA : ([c8_r1, c8_r2].filter fun d => d.itemNumber == "A")
      = [c8_r1, c8_r2] := rfl
  simp only [forecastDemand, hAA, calculateForecastFactors, c8_base_april,
    c8_trend_any, c8_holiday_factor, c8_seasonal, c8_dow, List.length_cons,
    List.length_nil]
  norm_num [jsMaxR, Option.map]

/-- C8 (counterexample).  The pipeline is not deterministic in its inputs:
running `generatePlan` twice on identical sales records, date range,
selection, configs and holiday rules, but at wall-clock dates 2025-03-15 and
2025-04-24, yields different `todayNeed` values for the same item (99 versus
54.45).  On 2025-03-15 the 30-day recency window still contains the
2025-03-10 record, so the base demand is its weighted average (100); by
2025-04-24 the window is empty and the forecaster falls back to the flat
average (55). -/
theorem plan_depends_on_wall_clock :
    (generatePlan [inactiveRule] [c8_r1, c8_r2] c8_range ["A"] c8_configs c8_gs
        (daysFromCivil 2025 3 15)).items.map (fun item => item.todayNeed)
      ≠ (generatePlan [inactiveRule] [c8_r1, c8_r2] c8_range ["A"] c8_configs c8_gs
        (daysFromCivil 2025 4 24)).items.map (fun item => item.todayNeed) := by
  have hcfgA : c8_configs "A" = some c8_config := rfl
  simp only [generatePlan, List.filterMap_cons, List.filterMap_nil, hcfgA,
    c8_itemdata_eval]
  simp only [c8_config, generatePlanItem, if_true]
  simp only [List.map_cons, List.map_nil]
  intro h
  have h2 := List.head_eq_of_cons_eq h
  have hstart : c8_range.start = daysFromCivil 2025 2 1 := rfl
  rw [hstart] at h2
  rw [c8_forecast_march, c8_forecast_april] at h2
  have : (99 : ℝ) = 1089/20 := Option.some.inj h2
  norm_num at this

/-- An active config for the no-data item of the C9 witness. -/
def c9_config : ItemConfig :=
  { itemNumber := "X", itemDescription := "Item X", productivity := 10,
    shelfLife := 3, minBatchSize := 5, maxDaysAhead := 3,
    defaultGrowthRate := 0, isActive := true }

/-- The config table for the C9 witness. -/
def c9_configs : String → Option ItemConfig :=
  fun i => if i = "X" then some c9_config else none

/-- Witness for C9: item X selected, active config, empty sales data. -/
theorem noData_item_zero_forecast_and_in_plan_witness :
    (forecastDemand [] [] 0 c9_config.defaultGrowthRate "X" 0).forecast = some 0 ∧
    (forecastDemand [] [] 0 c9_config.defaultGrowthRate "X" 0).confidence = 0 ∧
    createEmptyPlanItem "X" c9_config 0
      ∈ (generatePlan [] [] ⟨0, 10⟩ ["X"] c9_configs ⟨9, 2, 1⟩ 0).items ∧
    (createEmptyPlanItem "X" c9_config 0).batchDecision.produceToday = 0 ∧
    (createEmptyPlanItem "X" c9_config 0).batchDecision.reasoning
      = .noHistoricalData :=
  noData_item_zero_forecast_and_in_plan [] [] ⟨0, 10⟩ ["X"] c9_configs ⟨9, 2, 1⟩ 0
    "X" c9_config (by simp) rfl rfl (by simp)

/-- Witness for C8 (amended): with no sales records at all, every recency
window is empty at both wall-clock dates 5 and 9, so the two forecasts
coincide. -/
theorem forecast_deterministic_given_clock_witness :
    forecastDemand [] [] 0 0 "A" 5 = forecastDemand [] [] 0 0 "A" 9 :=
  forecast_deterministic_given_clock [] [] 0 0 "A" 5 9 rfl rfl rfl
